import Mathlib

/-!
Verification development for the ai-sdk-chat-kernel session/provider
lifecycle core. The definitions below are a shallow embedding of
src/providers.ts, src/models.ts and the AIChatKernel / ProgressCommManager
classes of src/federation.ts. External effects (support probes, model
downloads, settings, cancellation flags) are supplied by explicit
environment records, and asynchronous cancellation is represented by an
oracle consulted at each cooperative checkpoint, numbered in call order.
-/

namespace AiSdkChat

/-! ## Shared Instance Pool

Modelled from the spec: the reference-counted WebLLM shared-instance pool
(the module exporting releaseWebLLMInstance / getWebLLMPoolStatus, imported
by src/federation.ts from ./providers.js) is not present in the sources;
only its callers are. Per the spec, acquire(modelId) returns the existing
entry (incrementing refCount) or creates one with refCount = 1, and
release(modelId) decrements refCount and, when it reaches zero, invokes the
handle teardown and removes the entry. The teardowns field logs each
teardown invocation.
-/

structure PoolState where
  entries : List (String × Nat)
  teardowns : List String
deriving Repr, DecidableEq

def PoolState.empty : PoolState := ⟨[], []⟩

/-- Lookup in the entry association list. -/
def entryLookup : List (String × Nat) → String → Option Nat
  | [], _ => none
  | e :: rest, id => if e.1 == id then some e.2 else entryLookup rest id

/-- Refcount of the entry for a model id, if the entry exists. -/
def poolLookup (ps : PoolState) (id : String) : Option Nat :=
  entryLookup ps.entries id

/-- Increment an existing entry, or insert a fresh one with refCount 1. -/
def bumpEntry : List (String × Nat) → String → List (String × Nat)
  | [], id => [(id, 1)]
  | e :: rest, id => if e.1 == id then (e.1, e.2 + 1) :: rest else e :: bumpEntry rest id

/-- Modelled from the spec: acquire increments an existing refCount or
inserts a fresh entry with refCount 1. -/
def poolAcquire (ps : PoolState) (id : String) : PoolState :=
  { ps with entries := bumpEntry ps.entries id }

/-- Decrement an entry, removing it at zero; the flag reports whether the
entry was removed (teardown fired). -/
def dropEntry : List (String × Nat) → String → List (String × Nat) × Bool
  | [], _ => ([], false)
  | e :: rest, id =>
    if e.1 == id then
      if e.2 ≤ 1 then (rest, true) else ((e.1, e.2 - 1) :: rest, false)
    else
      let r := dropEntry rest id
      (e :: r.1, r.2)

/-- Modelled from the spec: release decrements the refCount and, when it
reaches zero, invokes teardown (logged) and removes the entry. A release
for an absent id is a no-op (the contract forbids unbalanced releases). -/
def poolRelease (ps : PoolState) (id : String) : PoolState :=
  let r := dropEntry ps.entries id
  { entries := r.1,
    teardowns := if r.2 then ps.teardowns ++ [id] else ps.teardowns }

/-- One pool operation, for reasoning about operation sequences. -/
inductive PoolOp where
  | acq (id : String)
  | rel (id : String)
deriving Repr, DecidableEq

def poolStep (ps : PoolState) (op : PoolOp) : PoolState :=
  match op with
  | .acq id => poolAcquire ps id
  | .rel id => poolRelease ps id

def poolRun (ps : PoolState) (ops : List PoolOp) : PoolState :=
  ops.foldl poolStep ps

def acqCount (id : String) (ops : List PoolOp) : Nat :=
  ops.countP (fun op => op == .acq id)

def relCount (id : String) (ops : List PoolOp) : Nat :=
  ops.countP (fun op => op == .rel id)

/-- A sequence is balanced for `id`, given a current refcount `c`, when no
release for `id` happens while the running count is zero. -/
def balancedFrom (id : String) (c : Nat) : List PoolOp → Bool
  | [] => true
  | .acq j :: rest => balancedFrom id (if j == id then c + 1 else c) rest
  | .rel j :: rest =>
    if j == id then decide (0 < c) && balancedFrom id (c - 1) rest
    else balancedFrom id c rest

/-- Running refcount for `id` after a sequence, starting from count `c`. -/
def netCount (id : String) (c : Nat) : List PoolOp → Nat
  | [] => c
  | .acq j :: rest => netCount id (if j == id then c + 1 else c) rest
  | .rel j :: rest => netCount id (if j == id then c - 1 else c) rest

/-- Number of times a release for `id` brings the running count to zero. -/
def zeroHits (id : String) (c : Nat) : List PoolOp → Nat
  | [] => 0
  | .acq j :: rest => zeroHits id (if j == id then c + 1 else c) rest
  | .rel j :: rest =>
    if j == id then (if c = 1 then 1 else 0) + zeroHits id (c - 1) rest
    else zeroHits id c rest

/-! ## src/providers.ts -/

/-- The fixed local-provider priority order used by getNextFallbackProvider
(src/providers.ts). -/
def fallbackOrder : List String :=
  ["built-in-ai/core", "built-in-ai/webllm", "built-in-ai/transformers"]

/-- autoSelectLocalProvider (src/providers.ts): first checks
built-in-ai/core, then built-in-ai/webllm, then built-in-ai/transformers,
returning the first whose (cached) support check reports supported. The
`support` oracle supplies the checkSupport results. -/
def autoSelectLocalProvider (support : String → Bool) : Option String :=
  if support "built-in-ai/core" then some "built-in-ai/core"
  else if support "built-in-ai/webllm" then some "built-in-ai/webllm"
  else if support "built-in-ai/transformers" then some "built-in-ai/transformers"
  else none

/-- getNextFallbackProvider (src/providers.ts): index of the failed
provider in fallbackOrder; if found and not last, the next entry. -/
def getNextFallbackProvider (failedProvider : String) : Option String :=
  match fallbackOrder.findIdx? (fun p => p == failedProvider) with
  | some i => if i + 1 < fallbackOrder.length then fallbackOrder.get? (i + 1) else none
  | none => none

/-! ## src/models.ts (provider registry) -/

structure ProviderConfig where
  name : String
  displayName : String
  requiresApiKey : Bool
  envVar : Option String := none
  isBuiltIn : Bool := false
  description : Option String := none
deriving Repr, DecidableEq

/-- SUGGESTED_PROVIDERS from src/models.ts, in object-key order (the
registry map is initialised from it). -/
def SUGGESTED_PROVIDERS : List ProviderConfig :=
  [ { name := "built-in-ai/core", displayName := "Built-in AI (Chrome/Edge)",
      requiresApiKey := false, isBuiltIn := true,
      description := some "Chrome/Edge built-in AI using Gemini Nano or Phi-4 Mini" },
    { name := "built-in-ai/webllm", displayName := "WebLLM (Local)",
      requiresApiKey := false, isBuiltIn := true,
      description := some "Local inference via WebGPU with open-source models" },
    { name := "openai", displayName := "OpenAI", requiresApiKey := true,
      envVar := some "OPENAI_API_KEY", description := some "OpenAI GPT models" },
    { name := "anthropic", displayName := "Anthropic", requiresApiKey := true,
      envVar := some "ANTHROPIC_API_KEY", description := some "Anthropic Claude models" },
    { name := "google", displayName := "Google", requiresApiKey := true,
      envVar := some "GOOGLE_GENERATIVE_AI_API_KEY", description := some "Google Gemini models" } ]

def getProviderConfig (name : String) : Option ProviderConfig :=
  SUGGESTED_PROVIDERS.find? (fun c => c.name == name)

/-- Modelled from the spec: the models.ts revision matching the current
federation.ts is absent from the sources; federation.ts itself documents
that its DEFAULT_PROVIDER is null ("DEFAULT_PROVIDER is null, indicating
auto-select") and prints "No provider configured - will auto-select" when
getDefaultProviderFromSettings() is null. -/
def DEFAULT_PROVIDER : Option String := none

/-! ## ProgressCommManager (src/federation.ts) -/

inductive ProgressStatus where
  | loading
  | complete
  | error
  | cancelled
deriving Repr, DecidableEq

/-- A message handed to kernel.handleComm by the comm manager. -/
inductive CommEvent where
  | openEv (commId : String)
  | progressEv (commId : String) (message : String) (percent : Int) (status : ProgressStatus)
  | closeEv (commId : String)
deriving Repr, DecidableEq

/-- State of a ProgressCommManager: commId, isOpen, the ProgressState
(isCancelled flag plus the abort controller, represented by a generation
counter that increments whenever a fresh AbortController is installed),
and the log of emitted comm events. -/
structure CommState where
  commId : Option String
  isOpen : Bool
  isCancelled : Bool
  abortGeneration : Nat
  events : List CommEvent
deriving Repr, DecidableEq

def CommState.init : CommState :=
  { commId := none, isOpen := false, isCancelled := false, abortGeneration := 0, events := [] }

/-- reset(): fresh cancellation state (isCancelled false, new
AbortController). -/
def commReset (cs : CommState) : CommState :=
  { cs with isCancelled := false, abortGeneration := cs.abortGeneration + 1 }

/-- open(): if already open, just reset the cancellation state; otherwise
install a fresh commId, reset, emit comm_open and mark open. The fresh id
generated from Date.now()/Math.random() is supplied as a parameter. -/
def commOpen (cs : CommState) (freshId : String) : CommState :=
  if cs.isOpen then commReset cs
  else
    { commReset cs with
      commId := some freshId,
      events := cs.events ++ [.openEv freshId],
      isOpen := true }

/-- sendProgress(message, percent, status): emits a progress_update comm
message only when the channel is open and has a comm id. -/
def commSendProgress (cs : CommState) (message : String) (percent : Int)
    (status : ProgressStatus) : CommState :=
  if !cs.isOpen || cs.commId.isNone then cs
  else
    match cs.commId with
    | some cid => { cs with events := cs.events ++ [.progressEv cid message percent status] }
    | none => cs

/-- close(): emits comm_close and clears isOpen/commId; a no-op when the
channel is not open. -/
def commClose (cs : CommState) : CommState :=
  if !cs.isOpen || cs.commId.isNone then cs
  else
    match cs.commId with
    | some cid =>
      { cs with events := cs.events ++ [.closeEv cid], isOpen := false, commId := none }
    | none => cs

/-! ## Progress reports and the deduplicating progress callback
(createSession in src/federation.ts) -/

/-- ProgressReport from src/providers.ts: fractional progress (0-1, absent
means indeterminate) and human-readable text. -/
structure ProgressReport where
  progress : Option ℚ
  text : String
deriving Repr, DecidableEq

/-- The percent argument passed to sendProgress by the createSession
progress callback: Math.round(progress * 100) when progress is present,
otherwise the placeholder 50 (the -1 indeterminate marker is replaced by
50 before the call). -/
def reportPercent (r : ProgressReport) : Int :=
  match r.progress with
  | some q => let p : Int := round (q * 100); if p ≥ 0 then p else 50
  | none => 50

/-- One step of the createSession progress callback: skip the report when
its text equals lastProgressMessage, otherwise record the text and forward
the report to the comm channel with status loading. -/
def progressCallbackStep (pc : String × CommState) (r : ProgressReport) : String × CommState :=
  if r.text = pc.1 then pc
  else (r.text, commSendProgress pc.2 r.text (reportPercent r) .loading)

/-- Runs the createSession progress callback over a list of reports,
starting from lastProgressMessage = "" as in the source. -/
def runProgressCallback (cs : CommState) (rs : List ProgressReport) : String × CommState :=
  rs.foldl progressCallbackStep ("", cs)

/-! ## Settings and environment (src/federation.ts module-level state and
external collaborators) -/

/-- The module-level settings snapshot captured from the frontend
(settingsDefaultProvider / settingsDefaultModel / settingsApiKey). The
frontend only stores truthy values, so Option String is faithful. -/
structure Settings where
  settingsDefaultProvider : Option String
  settingsDefaultModel : Option String
  settingsApiKey : Option String
deriving Repr, DecidableEq

def getDefaultProviderFromSettings (s : Settings) : Option String :=
  match s.settingsDefaultProvider with
  | some p => some p
  | none => DEFAULT_PROVIDER

def getApiKeyFromSettings (s : Settings) : Option String :=
  s.settingsApiKey

/-- Outcome of one createProvider call (src/providers.ts), as observed by
tryCreateSessionWithProvider: success (with the WebLLM model id acquired
in the Shared Instance Pool, when the provider is pool-eligible), an
ordinary failure message, or an AbortError raised by cooperative
cancellation inside the provider (e.g. mid-download). -/
inductive CreateOutcome where
  | ok (webllmModelId : Option String)
  | err (msg : String)
  | abortErr
deriving Repr, DecidableEq

/-- Environment of a session-construction run: the captured settings, the
provider support probes, getDefaultModel, the outcome of each
createProvider call, and the cancellation flag as sampled at each
cooperative checkpoint (numbered in call order of checkCancelled). -/
structure Env where
  settings : Settings
  support : String → Bool
  defaultModel : String → String
  create : String → String → CreateOutcome
  cancelledAt : Nat → Bool

def getDefaultModelFromSettings (env : Env) (providerName : String) : String :=
  match env.settings.settingsDefaultModel with
  | some m =>
    if getDefaultProviderFromSettings env.settings == some providerName then m
    else env.defaultModel providerName
  | none => env.defaultModel providerName

/-! ## AIChatKernel state (src/federation.ts) -/

/-- The per-kernel state of AIChatKernel: pending and active
configuration, the live language-model handle (represented by the
provider/model pair it was built for), the tracked WebLLM pool id, the
tool-pack registry, and the Shared Instance Pool the kernel releases
into. wikiModuleLoads counts dynamic imports of the wiki-query module
(instrumentation for the lazy-load/no-reload property). -/
structure KState where
  pendingProvider : Option String
  pendingModel : Option String
  pendingApiKey : Option String
  activeProvider : Option String
  activeModel : Option String
  languageModel : Option (String × String)
  sessionInitialized : Bool
  activeWebLLMModelId : Option String
  enabledToolPacks : List String
  toolPacksCache : List (String × List String)
  wikiModuleLoads : Nat
  pool : PoolState
deriving Repr, DecidableEq

/-- A freshly constructed kernel (all configuration deferred). -/
def KState.fresh : KState :=
  { pendingProvider := none, pendingModel := none, pendingApiKey := none,
    activeProvider := none, activeModel := none, languageModel := none,
    sessionInitialized := false, activeWebLLMModelId := none,
    enabledToolPacks := [], toolPacksCache := [], wikiModuleLoads := 0,
    pool := PoolState.empty }

def getApiKey (st : KState) (s : Settings) : Option String :=
  match st.pendingApiKey with
  | some k => some k
  | none => getApiKeyFromSettings s

def getProviderToUse (st : KState) (s : Settings) : Option String :=
  match st.pendingProvider with
  | some p => some p
  | none => getDefaultProviderFromSettings s

def isAutoSelectMode (st : KState) (s : Settings) : Bool :=
  st.pendingProvider.isNone && (getDefaultProviderFromSettings s).isNone

def getModelToUse (env : Env) (st : KState) (providerName : String) : String :=
  match st.pendingModel with
  | some m => m
  | none =>
    match st.pendingProvider with
    | some _ => env.defaultModel providerName
    | none => getDefaultModelFromSettings env providerName

/-- releaseSharedResources(): if a WebLLM pool id is tracked, release it
and clear the tracking field. -/
def releaseSharedResources (st : KState) : KState :=
  match st.activeWebLLMModelId with
  | some id => { st with pool := poolRelease st.pool id, activeWebLLMModelId := none }
  | none => st

inductive TryOutcome where
  | success
  | failure (msg : String)
  | aborted
deriving Repr, DecidableEq

/-- tryCreateSessionWithProvider: checkpoint, release previous shared
resources, call createProvider, checkpoint again, then commit the Active
configuration. An AbortError (from either checkpoint or from the provider
itself) is re-thrown; any other error is returned as a failure. On a
successful createProvider call for a pool-eligible model the instance has
already been acquired in the pool (spec-modelled, see PoolState); if
cancellation is then detected at the second checkpoint the AbortError
propagates without the commit and without releasing that acquisition. -/
def tryCreateSessionWithProvider (env : Env) (st : KState) (n : Nat)
    (providerName modelName : String) : KState × Nat × TryOutcome :=
  if env.cancelledAt n then (st, n + 1, .aborted)
  else
    let st1 := releaseSharedResources st
    match env.create providerName modelName with
    | .abortErr => (st1, n + 1, .aborted)
    | .err msg => (st1, n + 1, .failure msg)
    | .ok wid =>
      let st2 :=
        match wid with
        | some w => { st1 with pool := poolAcquire st1.pool w }
        | none => st1
      if env.cancelledAt (n + 1) then (st2, n + 2, .aborted)
      else
        let st3 :=
          { st2 with
            languageModel := some (providerName, modelName),
            activeProvider := some providerName,
            activeModel := some modelName,
            sessionInitialized := true,
            activeWebLLMModelId :=
              match wid with
              | some w => some w
              | none => st2.activeWebLLMModelId }
        (st3, n + 2, .success)

inductive SessionOutcome where
  | ok
  | error (msg : String)
  | aborted
deriving Repr, DecidableEq

/-- Result of a createSession run: final kernel state, next checkpoint
number, outcome, and the providers for which a construction attempt
(tryCreateSessionWithProvider) was made, in order. -/
structure SessionResult where
  state : KState
  ckpt : Nat
  outcome : SessionOutcome
  attempts : List String
deriving Repr, DecidableEq

def apiKeyRequiredMsg (providerName : String) : String :=
  "API key required for " ++ providerName ++
    ".\n\nSet it in: Settings > AI SDK Chat Kernel > API Key\n\nOr use magic commands:\n  %chat provider " ++
    providerName ++ " --key\n  %chat key"

def failedExplicitMsg (providerName modelName errMsg : String) : String :=
  "Failed to create session with " ++ providerName ++ "/" ++ modelName ++ ": " ++ errMsg

def noLocalProviderMsg : String :=
  "No local AI provider available.\n\nOptions:\n1. Enable Chrome/Edge Built-in AI in browser flags\n2. Use a browser with WebGPU support for WebLLM\n3. Configure a cloud provider with %chat provider openai --key"

def aggregateFailureMsg (errors : List String) : String :=
  "Failed to initialize any local AI provider:\n" ++ String.intercalate "\n" errors ++
    "\n\nTry configuring a cloud provider with %chat provider openai --key"

/-- The auto-select fallback loop of createSession: checkpoint at the loop
head, fetch the provider default model, attempt construction; on success
return, on failure record "provider: error" and move to the next fallback
provider, on cancellation propagate. The loop advances strictly along
fallbackOrder, so any fuel exceeding its length is enough; createSession
supplies fallbackOrder.length + 1. -/
def createSessionLoop (env : Env) (st : KState) (n : Nat) (providerName : String)
    (errors : List String) (attempts : List String) : Nat → SessionResult
  | 0 => ⟨st, n, .error (aggregateFailureMsg errors), attempts⟩
  | fuel + 1 =>
    if env.cancelledAt n then ⟨st, n + 1, .aborted, attempts⟩
    else
      let modelName := env.defaultModel providerName
      let r := tryCreateSessionWithProvider env st (n + 1) providerName modelName
      match r.2.2 with
      | .success => ⟨r.1, r.2.1, .ok, attempts ++ [providerName]⟩
      | .aborted => ⟨r.1, r.2.1, .aborted, attempts ++ [providerName]⟩
      | .failure e =>
        let errors1 := errors ++ [providerName ++ ": " ++ e]
        match getNextFallbackProvider providerName with
        | some next => createSessionLoop env r.1 r.2.1 next errors1 (attempts ++ [providerName]) fuel
        | none => ⟨r.1, r.2.1, .error (aggregateFailureMsg errors1), attempts ++ [providerName]⟩

/-- createSession: explicit path when a provider is configured (pending or
settings) — check the API key requirement and make a single attempt, no
fallback; otherwise the auto-select path with ordered fallback. -/
def createSession (env : Env) (st : KState) (n : Nat) : SessionResult :=
  let apiKey := getApiKey st env.settings
  match getProviderToUse st env.settings, isAutoSelectMode st env.settings with
  | some providerName, false =>
    let modelName := getModelToUse env st providerName
    let requiresKey :=
      match getProviderConfig providerName with
      | some c => c.requiresApiKey
      | none => false
    if apiKey.isNone && requiresKey then
      ⟨st, n, .error (apiKeyRequiredMsg providerName), []⟩
    else
      let r := tryCreateSessionWithProvider env st n providerName modelName
      match r.2.2 with
      | .success => ⟨r.1, r.2.1, .ok, [providerName]⟩
      | .failure e => ⟨r.1, r.2.1, .error (failedExplicitMsg providerName modelName e), [providerName]⟩
      | .aborted => ⟨r.1, r.2.1, .aborted, [providerName]⟩
  | _, _ =>
    match autoSelectLocalProvider env.support with
    | none => ⟨st, n, .error noLocalProviderMsg, []⟩
    | some p0 => createSessionLoop env st n p0 [] [] (fallbackOrder.length + 1)

/-- needsSessionRefresh (src/federation.ts). -/
def needsSessionRefresh (st : KState) (s : Settings) : Bool :=
  if !st.sessionInitialized then true
  else
    let targetProvider := getProviderToUse st s
    let targetModel := st.pendingModel
    if (match targetModel with
        | some m => !(st.activeModel == some m)
        | none => false) then true
    else if targetProvider.isNone && st.activeProvider.isSome then false
    else if (match targetProvider with
             | some p => !(st.activeProvider == some p)
             | none => false) then true
    else false

/-- getConfig(): the pending and active configuration visible to status
reporting. -/
structure ChatConfig where
  provider : Option String
  model : Option String
  sessionActive : Bool
  pendingProvider : Option String
  pendingModel : Option String
deriving Repr, DecidableEq

def getConfig (st : KState) : ChatConfig :=
  { provider := st.activeProvider, model := st.activeModel,
    sessionActive := st.sessionInitialized,
    pendingProvider := st.pendingProvider, pendingModel := st.pendingModel }

/-- setProvider(providerName, modelName?, apiKey?): records the pending
provider, replaces the pending model (cleared when no model is given),
optionally records a pending key, then releases shared resources and marks
the session for refresh. Returns the confirmation string. -/
def setProvider (st : KState) (providerName : String) (modelName : Option String)
    (apiKey : Option String) : KState × String :=
  let config := getProviderConfig providerName
  let st1 :=
    { st with
      pendingProvider := some providerName,
      pendingModel := modelName,
      pendingApiKey :=
        match apiKey with
        | some k => some k
        | none => st.pendingApiKey }
  let st2 := releaseSharedResources st1
  let st3 := { st2 with sessionInitialized := false, languageModel := none }
  let displayName :=
    match config with
    | some c => c.displayName
    | none => providerName
  (st3, "Provider: " ++ displayName)

/-- setModel(modelName). -/
def setModel (st : KState) (modelName : String) : KState × String :=
  let st1 := { st with pendingModel := some modelName }
  let st2 := releaseSharedResources st1
  let st3 := { st2 with sessionInitialized := false, languageModel := none }
  (st3, "Model: " ++ modelName)

/-- shutdown(). -/
def shutdown (st : KState) : KState :=
  let st1 := releaseSharedResources st
  { st1 with languageModel := none, sessionInitialized := false }

/-- The session-lifecycle portion of send(): create or refresh the session
when needed, then check that a language model is present. constructed
counts createSession invocations (0 or 1). The generation/streaming phase
does not mutate any of the configuration state modelled here, so it is
omitted; an error or abort outcome propagates to the caller before any
streaming happens. -/
structure SendResult where
  state : KState
  ckpt : Nat
  constructed : Nat
  outcome : SessionOutcome
deriving Repr, DecidableEq

def sendSession (env : Env) (st : KState) (n : Nat) : SendResult :=
  if needsSessionRefresh st env.settings then
    let r := createSession env st n
    match r.outcome with
    | .ok =>
      if r.state.languageModel.isNone then
        ⟨r.state, r.ckpt, 1, .error "Language model not initialized"⟩
      else ⟨r.state, r.ckpt, 1, .ok⟩
    | o => ⟨r.state, r.ckpt, 1, o⟩
  else
    if st.languageModel.isNone then ⟨st, n, 0, .error "Language model not initialized"⟩
    else ⟨st, n, 0, .ok⟩

/-- Total number of createSession invocations across k successive send()
calls. -/
def iterateSendConstructions (env : Env) : Nat → KState × Nat → Nat
  | 0, _ => 0
  | k + 1, (st, n) =>
    let r := sendSession env st n
    r.constructed + iterateSendConstructions env k (r.state, r.ckpt)

/-! ## Tool packs (enableToolPack and friends, src/federation.ts; tool
names from src/mcp-tools/wiki-query.ts) -/

/-- The keys of the record returned by getWikiQueryTools(). -/
def wikiQueryToolNames : List String :=
  ["discover_wiki_source", "get_wiki_content", "get_content_stats",
   "get_chunked_content", "convert_to_rdf", "clear_wiki_cache"]

/-- Map.set semantics for the toolPacksCache: overwrite in place, or
append a new binding. -/
def cacheSet : List (String × List String) → String → List String →
    List (String × List String)
  | [], key, val => [(key, val)]
  | e :: rest, key, val =>
    if e.1 == key then (key, val) :: rest else e :: cacheSet rest key val

/-- Map.get semantics for the toolPacksCache. -/
def cacheLookup : List (String × List String) → String → Option (List String)
  | [], _ => none
  | e :: rest, key => if e.1 == key then some e.2 else cacheLookup rest key

def toolCacheLookup (st : KState) (packName : String) : Option (List String) :=
  cacheLookup st.toolPacksCache packName

/-- getToolPackTools: cached tools, or lazily import the wiki-query module
(counted by wikiModuleLoads) and cache its tools. -/
def getToolPackTools (st : KState) (packName : String) : KState × List String :=
  match toolCacheLookup st packName with
  | some tools => (st, tools)
  | none =>
    if packName == "wiki-query" then
      ({ st with
         toolPacksCache := cacheSet st.toolPacksCache packName wikiQueryToolNames,
         wikiModuleLoads := st.wikiModuleLoads + 1 }, wikiQueryToolNames)
    else (st, [])

structure EnableResult where
  enabled : Bool
  tools : List String
  message : String
deriving Repr, DecidableEq

def alreadyEnabledMsg (packName : String) : String :=
  "Tool pack \x27" ++ packName ++ "\x27 is already enabled."

def enabledPackMsg (packName : String) (tools : List String) : String :=
  "Enabled tool pack \x27" ++ packName ++ "\x27 with " ++ toString tools.length ++
    " tools: " ++ String.intercalate ", " tools

def unknownPackMsg (packName : String) : String :=
  "Unknown tool pack: " ++ packName ++ ". Available packs: wiki-query"

/-- enableToolPack (src/federation.ts). -/
def enableToolPack (st : KState) (packName : String) : KState × EnableResult :=
  if packName == "wiki-query" then
    if st.enabledToolPacks.contains packName then
      let r := getToolPackTools st packName
      (r.1, { enabled := true, tools := r.2, message := alreadyEnabledMsg packName })
    else
      let st1 :=
        { st with
          toolPacksCache := cacheSet st.toolPacksCache packName wikiQueryToolNames,
          wikiModuleLoads := st.wikiModuleLoads + 1,
          enabledToolPacks := st.enabledToolPacks ++ [packName] }
      (st1, { enabled := true, tools := wikiQueryToolNames,
              message := enabledPackMsg packName wikiQueryToolNames })
  else
    (st, { enabled := false, tools := [], message := unknownPackMsg packName })

/-- disableToolPack (src/federation.ts). -/
def disableToolPack (st : KState) (packName : String) : KState × (Bool × String) :=
  if st.enabledToolPacks.contains packName then
    ({ st with
       enabledToolPacks := st.enabledToolPacks.filter (fun p => !(p == packName)),
       toolPacksCache := st.toolPacksCache.filter (fun e => !(e.1 == packName)) },
     (true, "Disabled tool pack \x27" ++ packName ++ "\x27."))
  else (st, (false, "Tool pack \x27" ++ packName ++ "\x27 is not enabled."))

/-- Whether `sub` occurs as a contiguous run inside `l`. -/
def charSegment (sub : List Char) : List Char → Bool
  | [] => sub.isEmpty
  | l@(_ :: rest) => sub.isPrefixOf l || charSegment sub rest

/-- Substring test used to state "message contains ..." properties. -/
def containsSub (s sub : String) : Bool :=
  charSegment sub.data s.data

/-! ## Theorems -/

/-- C4: autoSelectLocalProvider evaluates the local providers in the fixed
priority order built-in-ai/core, built-in-ai/webllm, built-in-ai/transformers,
returning the first whose support check reports supported (none when none
is supported), and getNextFallbackProvider returns the next provider in
that same order, or none for the last entry or an unlisted provider. -/
theorem autoselect_first_supported_and_fallback_order :
    (∀ support : String → Bool,
        autoSelectLocalProvider support = fallbackOrder.find? support)
    ∧ getNextFallbackProvider "built-in-ai/core" = some "built-in-ai/webllm"
    ∧ getNextFallbackProvider "built-in-ai/webllm" = some "built-in-ai/transformers"
    ∧ getNextFallbackProvider "built-in-ai/transformers" = none
    ∧ (∀ p, p ∉ fallbackOrder → getNextFallbackProvider p = none) := by
  refine ⟨?_, by decide, by decide, by decide, ?_⟩
  · intro support
    cases h1 : support "built-in-ai/core" <;> cases h2 : support "built-in-ai/webllm" <;>
      cases h3 : support "built-in-ai/transformers" <;>
        simp [autoSelectLocalProvider, fallbackOrder, List.find?, h1, h2, h3]
  · intro p hp
    simp only [fallbackOrder, List.mem_cons, List.not_mem_nil, or_false, not_or] at hp
    obtain ⟨h1, h2, h3⟩ := hp
    have e1 : (("built-in-ai/core" : String) == p) = false := by
      simp [beq_eq_false_iff_ne]; exact fun h => h1 h.symm
    have e2 : (("built-in-ai/webllm" : String) == p) = false := by
      simp [beq_eq_false_iff_ne]; exact fun h => h2 h.symm
    have e3 : (("built-in-ai/transformers" : String) == p) = false := by
      simp [beq_eq_false_iff_ne]; exact fun h => h3 h.symm
    simp [getNextFallbackProvider, fallbackOrder, List.findIdx?, e1, e2, e3]

/-- Witness for C4 at a concrete unlisted provider. -/
theorem autoselect_first_supported_and_fallback_order_witness :
    getNextFallbackProvider "openai" = none ∧ "openai" ∉ fallbackOrder :=
  ⟨autoselect_first_supported_and_fallback_order.2.2.2.2 "openai" (by decide), by decide⟩

/-- C9: on a ProgressCommManager that is not open, sendProgress and close
are no-ops (nothing emitted, nothing thrown — the model is total); open()
while already open only resets the cancellation state (isCancelled false,
fresh abort controller), leaving the comm id, the open flag and the
emitted-event log untouched. -/
theorem comm_mutations_safe_after_close :
    (∀ (cs : CommState) (m : String) (p : Int) (stt : ProgressStatus),
        cs.isOpen = false → commSendProgress cs m p stt = cs ∧ commClose cs = cs)
    ∧ (∀ (cs : CommState) (freshId : String), cs.isOpen = true →
        commOpen cs freshId =
          { cs with isCancelled := false, abortGeneration := cs.abortGeneration + 1 }) := by
  constructor
  · intro cs m p stt h
    constructor
    · simp [commSendProgress, h]
    · simp [commClose, h]
  · intro cs freshId h
    simp [commOpen, commReset, h]

/-- Witness for C9 at concrete channel states. -/
theorem comm_mutations_safe_after_close_witness :
    commSendProgress CommState.init "Ready" 100 .complete = CommState.init
    ∧ commClose CommState.init = CommState.init
    ∧ commOpen ⟨some "c1", true, true, 3, []⟩ "c2" = ⟨some "c1", true, false, 4, []⟩ := by
  refine ⟨(comm_mutations_safe_after_close.1 CommState.init "Ready" 100 .complete rfl).1,
          (comm_mutations_safe_after_close.1 CommState.init "Ready" 100 .complete rfl).2,
          ?_⟩
  have h := comm_mutations_safe_after_close.2 ⟨some "c1", true, true, 3, []⟩ "c2" rfl
  simpa using h

/-- Processing the same report twice in a row is the same as processing it
once: after a step, lastProgressMessage equals the report text. -/
lemma progressCallbackStep_idem (pc : String × CommState) (r : ProgressReport) :
    progressCallbackStep (progressCallbackStep pc r) r = progressCallbackStep pc r := by
  by_cases h : r.text = pc.1
  · simp [progressCallbackStep, h]
  · simp [progressCallbackStep, h]

/-- C6: the createSession progress callback suppresses a consecutive
duplicate report (two identical loading reports in a row deliver exactly
one comm message), while a report sent directly through sendProgress —
as the terminal complete/error/cancelled reports of executeRequest are —
is always delivered on an open channel, regardless of any textual match
with the preceding message. -/
theorem progress_dedup_and_terminal_delivery :
    (∀ (cs : CommState) (pre : List ProgressReport) (r : ProgressReport),
        runProgressCallback cs (pre ++ [r, r]) = runProgressCallback cs (pre ++ [r]))
    ∧ (∀ (last : String) (cs : CommState) (cid : String) (r : ProgressReport),
        r.text ≠ last → cs.isOpen = true → cs.commId = some cid →
        progressCallbackStep (last, cs) r =
          (r.text,
           { cs with events := cs.events ++ [.progressEv cid r.text (reportPercent r) .loading] }))
    ∧ (∀ (cs : CommState) (cid : String) (m : String) (p : Int) (stt : ProgressStatus),
        cs.isOpen = true → cs.commId = some cid →
        commSendProgress cs m p stt =
          { cs with events := cs.events ++ [.progressEv cid m p stt] }) := by
  refine ⟨?_, ?_, ?_⟩
  · intro cs pre r
    simp [runProgressCallback, List.foldl_append, progressCallbackStep_idem]
  · intro last cs cid r hne hopen hcid
    simp [progressCallbackStep, hne, commSendProgress, hopen, hcid]
  · intro cs cid m p stt hopen hcid
    simp [commSendProgress, hopen, hcid]

/-- Witness for C6: a duplicated loading report delivers once; a complete
report with the same text is still delivered. -/
theorem progress_dedup_and_terminal_delivery_witness :
    runProgressCallback CommState.init [⟨none, "X"⟩, ⟨none, "X"⟩]
      = runProgressCallback CommState.init [⟨none, "X"⟩]
    ∧ commSendProgress ⟨some "c1", true, false, 0, []⟩ "X" 100 .complete
      = ⟨some "c1", true, false, 0, [.progressEv "c1" "X" 100 .complete]⟩ := by
  constructor
  · exact progress_dedup_and_terminal_delivery.1 CommState.init [] ⟨none, "X"⟩
  · have h := progress_dedup_and_terminal_delivery.2.2 ⟨some "c1", true, false, 0, []⟩
      "c1" "X" 100 .complete rfl rfl
    simpa using h

/-- C10: setProvider(name) with no model argument resets pendingModel to
null (a previously chosen model is discarded, so the next construction
uses the new provider's default model); with a model argument that model
becomes pending; in both cases any held shared WebLLM instance is
released, the session is marked uninitialized and the next send
reconstructs. -/
theorem set_provider_resets_pending_model :
    ∀ (st : KState) (p : String) (mo k : Option String),
      ((setProvider st p mo k).1.pendingModel = mo)
      ∧ ((setProvider st p mo k).1.pendingProvider = some p)
      ∧ ((setProvider st p mo k).1.sessionInitialized = false)
      ∧ ((setProvider st p mo k).1.languageModel = none)
      ∧ ((setProvider st p mo k).1.activeWebLLMModelId = none)
      ∧ (∀ id, st.activeWebLLMModelId = some id →
          (setProvider st p mo k).1.pool = poolRelease st.pool id)
      ∧ (st.activeWebLLMModelId = none → (setProvider st p mo k).1.pool = st.pool)
      ∧ (∀ s, needsSessionRefresh (setProvider st p mo k).1 s = true)
      ∧ (mo = none → ∀ env : Env, getModelToUse env (setProvider st p mo k).1 p
          = env.defaultModel p) := by
  intro st p mo k
  cases hw : st.activeWebLLMModelId with
  | none =>
    refine ⟨?_, ?_, ?_, ?_, ?_, ?_, ?_, ?_, ?_⟩ <;>
      simp [setProvider, releaseSharedResources, needsSessionRefresh, getModelToUse, hw]
    · rintro rfl env; rfl
  | some id0 =>
    refine ⟨?_, ?_, ?_, ?_, ?_, ?_, ?_, ?_, ?_⟩ <;>
      simp [setProvider, releaseSharedResources, needsSessionRefresh, getModelToUse, hw]
    · rintro rfl env; rfl

/-- A kernel state with a chosen pending model and a held WebLLM
instance, used to witness C10. -/
def kstateHoldingInstance : KState :=
  { KState.fresh with
      pendingModel := some "gpt-4o",
      activeWebLLMModelId := some "m1",
      pool := ⟨[("m1", 1)], []⟩ }

/-- Witness for C10: discarding a previously chosen model and releasing
the held WebLLM instance. -/
theorem set_provider_resets_pending_model_witness :
    ((setProvider kstateHoldingInstance "openai" none none).1.pendingModel = none)
    ∧ ((setProvider kstateHoldingInstance "openai" none none).1.pool
        = poolRelease ⟨[("m1", 1)], []⟩ "m1") := by
  refine ⟨(set_provider_resets_pending_model kstateHoldingInstance "openai" none none).1, ?_⟩
  exact (set_provider_resets_pending_model kstateHoldingInstance
    "openai" none none).2.2.2.2.2.1 "m1" rfl

lemma contains_append_self (l : List String) (a : String) :
    (l ++ [a]).contains a = true := by
  induction l with
  | nil => simp
  | cons hd tl ih => simp [List.contains_cons, ih]

lemma cacheLookup_cacheSet (c : List (String × List String)) (k : String) (v : List String) :
    cacheLookup (cacheSet c k v) k = some v := by
  induction c with
  | nil => simp [cacheSet, cacheLookup]
  | cons e rest ih =>
    by_cases h : (e.1 == k) = true
    · simp [cacheSet, cacheLookup, h]
    · simp [cacheSet, cacheLookup, h, ih]

/-- C8: enableToolPack is idempotent — re-enabling an already-enabled
wiki-query pack returns enabled with the same tool set and an
"already enabled" message, without reloading the module or duplicating
registry state — and an unknown pack name yields enabled = false with an
empty tool list and an unchanged state. -/
theorem enable_tool_pack_idempotent_and_unknown :
    (∀ st : KState, st.enabledToolPacks.contains "wiki-query" = false →
      ((enableToolPack st "wiki-query").2.enabled = true)
      ∧ ((enableToolPack (enableToolPack st "wiki-query").1 "wiki-query").2.enabled = true)
      ∧ ((enableToolPack (enableToolPack st "wiki-query").1 "wiki-query").2.tools
          = (enableToolPack st "wiki-query").2.tools)
      ∧ (containsSub (enableToolPack (enableToolPack st "wiki-query").1 "wiki-query").2.message
          "already enabled" = true)
      ∧ ((enableToolPack (enableToolPack st "wiki-query").1 "wiki-query").1
          = (enableToolPack st "wiki-query").1))
    ∧ (∀ (st : KState) (q : String), q ≠ "wiki-query" →
        enableToolPack st q
          = (st, { enabled := false, tools := [], message := unknownPackMsg q })) := by
  constructor
  · intro st h
    have hmem : "wiki-query" ∉ st.enabledToolPacks := by simpa using h
    have e1 : enableToolPack st "wiki-query"
        = ({ st with
              toolPacksCache := cacheSet st.toolPacksCache "wiki-query" wikiQueryToolNames,
              wikiModuleLoads := st.wikiModuleLoads + 1,
              enabledToolPacks := st.enabledToolPacks ++ ["wiki-query"] },
           { enabled := true, tools := wikiQueryToolNames,
             message := enabledPackMsg "wiki-query" wikiQueryToolNames }) := by
      simp [enableToolPack, hmem]
    have e2 : enableToolPack (enableToolPack st "wiki-query").1 "wiki-query"
        = ((enableToolPack st "wiki-query").1,
           { enabled := true, tools := wikiQueryToolNames,
             message := alreadyEnabledMsg "wiki-query" }) := by
      rw [e1]
      simp [enableToolPack, getToolPackTools, toolCacheLookup, cacheLookup_cacheSet]
    have hcs : containsSub (alreadyEnabledMsg "wiki-query") "already enabled" = true := by
      decide
    exact ⟨by rw [e1], by rw [e2], by rw [e2, e1], by rw [e2]; exact hcs, by rw [e2]⟩
  · intro st q hq
    have hb : (q == "wiki-query") = false := by
      simp [beq_eq_false_iff_ne]; exact hq
    simp [enableToolPack, hb]

/-- Witness for C8 at a fresh kernel. -/
theorem enable_tool_pack_idempotent_and_unknown_witness :
    ((enableToolPack (enableToolPack KState.fresh "wiki-query").1 "wiki-query").2.tools
      = (enableToolPack KState.fresh "wiki-query").2.tools)
    ∧ ((enableToolPack (enableToolPack KState.fresh "wiki-query").1 "wiki-query").1
        = (enableToolPack KState.fresh "wiki-query").1)
    ∧ (enableToolPack KState.fresh "bogus-pack"
        = (KState.fresh,
           { enabled := false, tools := [], message := unknownPackMsg "bogus-pack" })) :=
  ⟨((enable_tool_pack_idempotent_and_unknown.1 KState.fresh rfl).2.2.1),
   ((enable_tool_pack_idempotent_and_unknown.1 KState.fresh rfl).2.2.2.2),
   (enable_tool_pack_idempotent_and_unknown.2 KState.fresh "bogus-pack" (by decide))⟩

/-! ### Pool lemmas (C7) -/

lemma entryLookup_of_filter_nil (id : String) (l : List (String × Nat))
    (h : l.filter (fun e => e.1 == id) = []) : entryLookup l id = none := by
  induction l with
  | nil => rfl
  | cons e rest ih =>
    by_cases he : (e.1 == id) = true
    · simp [List.filter_cons, he] at h
    · simp only [List.filter_cons, he, Bool.false_eq_true, ite_false] at h
      simp [entryLookup, he, ih h]

lemma entryLookup_of_filter_single (id : String) (l : List (String × Nat)) (c : Nat)
    (h : l.filter (fun e => e.1 == id) = [(id, c)]) : entryLookup l id = some c := by
  induction l with
  | nil => simp at h
  | cons e rest ih =>
    by_cases he : (e.1 == id) = true
    · simp only [List.filter_cons, he, ite_true, List.cons.injEq] at h
      simp [entryLookup, he, h.1]
    · simp only [List.filter_cons, he, Bool.false_eq_true, ite_false] at h
      simp [entryLookup, he, ih h]

lemma bumpEntry_filter_nil (id : String) (l : List (String × Nat))
    (h : l.filter (fun e => e.1 == id) = []) :
    (bumpEntry l id).filter (fun e => e.1 == id) = [(id, 1)] := by
  induction l with
  | nil => simp [bumpEntry]
  | cons e rest ih =>
    by_cases he : (e.1 == id) = true
    · simp [List.filter_cons, he] at h
    · simp only [List.filter_cons, he, Bool.false_eq_true, ite_false] at h
      simp [bumpEntry, he, List.filter_cons, ih h]

lemma bumpEntry_filter_single (id : String) (l : List (String × Nat)) (c : Nat)
    (h : l.filter (fun e => e.1 == id) = [(id, c)]) :
    (bumpEntry l id).filter (fun e => e.1 == id) = [(id, c + 1)] := by
  induction l with
  | nil => simp at h
  | cons e rest ih =>
    by_cases he : (e.1 == id) = true
    · simp only [List.filter_cons, he, ite_true, List.cons.injEq] at h
      obtain ⟨rfl, hrest⟩ := h
      simp [bumpEntry, List.filter_cons, hrest]
    · simp only [List.filter_cons, he, Bool.false_eq_true, ite_false] at h
      simp [bumpEntry, he, List.filter_cons, ih h]

lemma bumpEntry_filter_other (id j : String) (l : List (String × Nat))
    (hj : (j == id) = false) :
    (bumpEntry l j).filter (fun e => e.1 == id) = l.filter (fun e => e.1 == id) := by
  induction l with
  | nil => simp [bumpEntry, List.filter_cons, hj]
  | cons e rest ih =>
    by_cases he : (e.1 == j) = true
    · have : (e.1 == id) = false := by
        have h1 : e.1 = j := by simpa using he
        simpa [h1] using hj
      simp [bumpEntry, he, List.filter_cons, this]
    · simp [bumpEntry, he, List.filter_cons, ih]

lemma dropEntry_filter_single_one (id : String) (l : List (String × Nat))
    (h : l.filter (fun e => e.1 == id) = [(id, 1)]) :
    (dropEntry l id).1.filter (fun e => e.1 == id) = [] ∧ (dropEntry l id).2 = true := by
  induction l with
  | nil => simp at h
  | cons e rest ih =>
    by_cases he : (e.1 == id) = true
    · simp only [List.filter_cons, he, ite_true, List.cons.injEq] at h
      obtain ⟨rfl, hrest⟩ := h
      simp [dropEntry, hrest]
    · simp only [List.filter_cons, he, Bool.false_eq_true, ite_false] at h
      have := ih h
      simp [dropEntry, he, List.filter_cons, this.1, this.2]

lemma dropEntry_filter_single_ge2 (id : String) (l : List (String × Nat)) (c : Nat)
    (hc : 2 ≤ c) (h : l.filter (fun e => e.1 == id) = [(id, c)]) :
    (dropEntry l id).1.filter (fun e => e.1 == id) = [(id, c - 1)]
    ∧ (dropEntry l id).2 = false := by
  induction l with
  | nil => simp at h
  | cons e rest ih =>
    by_cases he : (e.1 == id) = true
    · simp only [List.filter_cons, he, ite_true, List.cons.injEq] at h
      obtain ⟨rfl, hrest⟩ := h
      have hnle : ¬ (c ≤ 1) := by omega
      simp [dropEntry, hnle, List.filter_cons, hrest]
    · simp only [List.filter_cons, he, Bool.false_eq_true, ite_false] at h
      have := ih h
      simp [dropEntry, he, List.filter_cons, this.1, this.2]

lemma dropEntry_filter_other (id j : String) (l : List (String × Nat))
    (hj : (j == id) = false) :
    (dropEntry l j).1.filter (fun e => e.1 == id) = l.filter (fun e => e.1 == id) := by
  induction l with
  | nil => simp [dropEntry]
  | cons e rest ih =>
    by_cases he : (e.1 == j) = true
    · have hei : (e.1 == id) = false := by
        have h1 : e.1 = j := by simpa using he
        simpa [h1] using hj
      by_cases hle : e.2 ≤ 1
      · simp [dropEntry, he, hle, List.filter_cons, hei]
      · simp [dropEntry, he, hle, List.filter_cons, hei]
    · simp [dropEntry, he, List.filter_cons, ih]

/-- Main pool invariant: starting from a state whose entries for `id` are
exactly described by the running count `c`, a balanced operation sequence
leaves the entries described by the final running count and appends one
teardown per zero hit. -/
lemma poolRun_invariant (id : String) :
    ∀ (ops : List PoolOp) (c : Nat) (ps : PoolState),
      balancedFrom id c ops = true →
      ps.entries.filter (fun e => e.1 == id) = (if c = 0 then [] else [(id, c)]) →
      ((poolRun ps ops).entries.filter (fun e => e.1 == id)
          = (if netCount id c ops = 0 then [] else [(id, netCount id c ops)]))
      ∧ (poolRun ps ops).teardowns.count id
          = ps.teardowns.count id + zeroHits id c ops := by
  intro ops
  induction ops with
  | nil =>
    intro c ps _ hinv
    simpa [poolRun, netCount, zeroHits] using hinv
  | cons op rest ih =>
    intro c ps hbal hinv
    cases op with
    | acq j =>
      by_cases hj : (j == id) = true
      · have h1 : j = id := by simpa using hj
        have hbal1 : balancedFrom id (c + 1) rest = true := by
          simpa [balancedFrom, hj] using hbal
        have hstep : (poolStep ps (.acq j)).entries.filter (fun e => e.1 == id)
            = [(id, c + 1)] := by
          rw [h1]
          show (bumpEntry ps.entries id).filter (fun e => e.1 == id) = [(id, c + 1)]
          by_cases hc : c = 0
          · rw [hc] at hinv
            simp only [ite_true] at hinv
            have := bumpEntry_filter_nil id ps.entries hinv
            rw [hc]
            exact this
          · rw [if_neg hc] at hinv
            exact bumpEntry_filter_single id ps.entries c hinv
        have hrec := ih (c + 1) (poolStep ps (.acq j)) hbal1 (by simp [hstep])
        refine ⟨?_, ?_⟩
        · have : poolRun ps (.acq j :: rest) = poolRun (poolStep ps (.acq j)) rest := rfl
          rw [this]
          have hn : netCount id c (.acq j :: rest) = netCount id (c + 1) rest := by
            simp [netCount, hj]
          rw [hn]
          exact hrec.1
        · have ht : (poolStep ps (.acq j)).teardowns = ps.teardowns := rfl
          have hz : zeroHits id c (.acq j :: rest) = zeroHits id (c + 1) rest := by
            simp [zeroHits, hj]
          calc (poolRun ps (.acq j :: rest)).teardowns.count id
              = (poolStep ps (.acq j)).teardowns.count id + zeroHits id (c + 1) rest := hrec.2
            _ = ps.teardowns.count id + zeroHits id c (.acq j :: rest) := by rw [ht, hz]
      · have hj' : (j == id) = false := by simpa using hj
        have hbal1 : balancedFrom id c rest = true := by
          simpa [balancedFrom, hj'] using hbal
        have hstep : (poolStep ps (.acq j)).entries.filter (fun e => e.1 == id)
            = (if c = 0 then [] else [(id, c)]) := by
          show (bumpEntry ps.entries j).filter (fun e => e.1 == id) = _
          rw [bumpEntry_filter_other id j ps.entries hj']
          exact hinv
        have hrec := ih c (poolStep ps (.acq j)) hbal1 hstep
        refine ⟨?_, ?_⟩
        · have hn : netCount id c (.acq j :: rest) = netCount id c rest := by
            simp [netCount, hj']
          rw [show poolRun ps (.acq j :: rest) = poolRun (poolStep ps (.acq j)) rest from rfl,
            hn]
          exact hrec.1
        · have ht : (poolStep ps (.acq j)).teardowns = ps.teardowns := rfl
          have hz : zeroHits id c (.acq j :: rest) = zeroHits id c rest := by
            simp [zeroHits, hj']
          calc (poolRun ps (.acq j :: rest)).teardowns.count id
              = (poolStep ps (.acq j)).teardowns.count id + zeroHits id c rest := hrec.2
            _ = ps.teardowns.count id + zeroHits id c (.acq j :: rest) := by rw [ht, hz]
    | rel j =>
      by_cases hj : (j == id) = true
      · have h1 : j = id := by simpa using hj
        have hb : (0 < c) ∧ balancedFrom id (c - 1) rest = true := by
          have hh := hbal
          simp only [balancedFrom, hj, ite_true, Bool.and_eq_true, decide_eq_true_eq] at hh
          exact hh
        have hcpos : ¬ (c = 0) := by omega
        rw [if_neg hcpos] at hinv
        have hn : netCount id c (.rel j :: rest) = netCount id (c - 1) rest := by
          simp [netCount, hj]
        have hz : zeroHits id c (.rel j :: rest)
            = (if c = 1 then 1 else 0) + zeroHits id (c - 1) rest := by
          simp [zeroHits, hj]
        by_cases hc1 : c = 1
        · have hinv1 : ps.entries.filter (fun e => e.1 == id) = [(id, 1)] := by
            rw [hinv, hc1]
          have hd := dropEntry_filter_single_one id ps.entries hinv1
          have hstep : (poolStep ps (.rel j)).entries.filter (fun e => e.1 == id) = [] := by
            rw [h1]
            show (poolRelease ps id).entries.filter (fun e => e.1 == id) = []
            simpa [poolRelease] using hd.1
          have hstept : (poolStep ps (.rel j)).teardowns = ps.teardowns ++ [id] := by
            rw [h1]
            show (poolRelease ps id).teardowns = _
            simp [poolRelease, hd.2]
          have hbal0 : balancedFrom id (c - 1) rest = true := hb.2
          have hrec := ih (c - 1) (poolStep ps (.rel j)) hbal0
            (by rw [hc1]; simpa using hstep)
          refine ⟨?_, ?_⟩
          · rw [show poolRun ps (.rel j :: rest) = poolRun (poolStep ps (.rel j)) rest from rfl,
              hn]
            exact hrec.1
          · calc (poolRun ps (.rel j :: rest)).teardowns.count id
                = (poolStep ps (.rel j)).teardowns.count id + zeroHits id (c - 1) rest := hrec.2
              _ = ps.teardowns.count id + zeroHits id c (.rel j :: rest) := by
                  rw [hstept, hz, hc1]
                  simp [List.count_append]
                  omega
        · have hc2 : 2 ≤ c := by omega
          have hd := dropEntry_filter_single_ge2 id ps.entries c hc2 hinv
          have hstep : (poolStep ps (.rel j)).entries.filter (fun e => e.1 == id)
              = [(id, c - 1)] := by
            rw [h1]
            show (poolRelease ps id).entries.filter (fun e => e.1 == id) = _
            simpa [poolRelease] using hd.1
          have hstept : (poolStep ps (.rel j)).teardowns = ps.teardowns := by
            rw [h1]
            show (poolRelease ps id).teardowns = _
            simp [poolRelease, hd.2]
          have hneq : ¬ (c - 1 = 0) := by omega
          have hrec := ih (c - 1) (poolStep ps (.rel j)) hb.2 (by rw [if_neg hneq]; exact hstep)
          refine ⟨?_, ?_⟩
          · rw [show poolRun ps (.rel j :: rest) = poolRun (poolStep ps (.rel j)) rest from rfl,
              hn]
            exact hrec.1
          · calc (poolRun ps (.rel j :: rest)).teardowns.count id
                = (poolStep ps (.rel j)).teardowns.count id + zeroHits id (c - 1) rest := hrec.2
              _ = ps.teardowns.count id + zeroHits id c (.rel j :: rest) := by
                  rw [hstept, hz]
                  simp [hc1]
      · have hj' : (j == id) = false := by simpa using hj
        have hbal1 : balancedFrom id c rest = true := by
          simpa [balancedFrom, hj'] using hbal
        have hstep : (poolStep ps (.rel j)).entries.filter (fun e => e.1 == id)
            = (if c = 0 then [] else [(id, c)]) := by
          show (poolRelease ps j).entries.filter (fun e => e.1 == id) = _
          simp only [poolRelease]
          rw [dropEntry_filter_other id j ps.entries hj']
          exact hinv
        have hstept : (poolStep ps (.rel j)).teardowns.count id = ps.teardowns.count id := by
          show (poolRelease ps j).teardowns.count id = _
          simp only [poolRelease]
          by_cases hdrop : (dropEntry ps.entries j).2 = true
          · have hne : ¬ (id = j) := by
              intro hcontra
              rw [hcontra] at hj'
              simp at hj'
            simp [hdrop, List.count_append, hne]
          · simp [hdrop]
        have hrec := ih c (poolStep ps (.rel j)) hbal1 hstep
        refine ⟨?_, ?_⟩
        · have hn : netCount id c (.rel j :: rest) = netCount id c rest := by
            simp [netCount, hj']
          rw [show poolRun ps (.rel j :: rest) = poolRun (poolStep ps (.rel j)) rest from rfl,
            hn]
          exact hrec.1
        · have hz : zeroHits id c (.rel j :: rest) = zeroHits id c rest := by
            simp [zeroHits, hj']
          calc (poolRun ps (.rel j :: rest)).teardowns.count id
              = (poolStep ps (.rel j)).teardowns.count id + zeroHits id c rest := hrec.2
            _ = ps.teardowns.count id + zeroHits id c (.rel j :: rest) := by rw [hstept, hz]

lemma netCount_add_relCount (id : String) :
    ∀ (ops : List PoolOp) (c : Nat), balancedFrom id c ops = true →
      netCount id c ops + relCount id ops = c + acqCount id ops := by
  intro ops
  induction ops with
  | nil => intro c _; simp [netCount, relCount, acqCount]
  | cons op rest ih =>
    intro c hbal
    cases op with
    | acq j =>
      by_cases hj : (j == id) = true
      · have h1 : j = id := by simpa using hj
        have hbal1 : balancedFrom id (c + 1) rest = true := by
          simpa [balancedFrom, hj] using hbal
        have hrec := ih (c + 1) hbal1
        simp [netCount, relCount, acqCount, hj, h1, List.countP_cons] at hrec ⊢
        omega
      · have hj' : (j == id) = false := by simpa using hj
        have h1 : ¬ (j = id) := by simpa using hj'
        have hbal1 : balancedFrom id c rest = true := by
          simpa [balancedFrom, hj'] using hbal
        have hrec := ih c hbal1
        simp only [netCount, relCount, acqCount, hj', List.countP_cons] at hrec ⊢
        simp [h1] at hrec ⊢
        omega
    | rel j =>
      by_cases hj : (j == id) = true
      · have h1 : j = id := by simpa using hj
        have hb : (0 < c) ∧ balancedFrom id (c - 1) rest = true := by
          have hh := hbal
          simp only [balancedFrom, hj, ite_true, Bool.and_eq_true, decide_eq_true_eq] at hh
          exact hh
        have hrec := ih (c - 1) hb.2
        simp only [netCount, relCount, acqCount, hj, ite_true, List.countP_cons] at hrec ⊢
        simp [h1] at hrec ⊢
        omega
      · have hj' : (j == id) = false := by simpa using hj
        have h1 : ¬ (j = id) := by simpa using hj'
        have hbal1 : balancedFrom id c rest = true := by
          simpa [balancedFrom, hj'] using hbal
        have hrec := ih c hbal1
        simp only [netCount, relCount, acqCount, hj', List.countP_cons] at hrec ⊢
        simp [h1] at hrec ⊢
        omega

lemma balancedFrom_replicate_acq (id : String) :
    ∀ (k c : Nat) (rest : List PoolOp),
      balancedFrom id c (List.replicate k (PoolOp.acq id) ++ rest)
        = balancedFrom id (c + k) rest := by
  intro k
  induction k with
  | zero => intro c rest; simp
  | succ k ihk =>
    intro c rest
    have : c + (k + 1) = (c + 1) + k := by omega
    rw [this]
    simpa [List.replicate_succ, balancedFrom] using ihk (c + 1) rest

lemma netCount_replicate_acq (id : String) :
    ∀ (k c : Nat) (rest : List PoolOp),
      netCount id c (List.replicate k (PoolOp.acq id) ++ rest)
        = netCount id (c + k) rest := by
  intro k
  induction k with
  | zero => intro c rest; simp
  | succ k ihk =>
    intro c rest
    have : c + (k + 1) = (c + 1) + k := by omega
    rw [this]
    simpa [List.replicate_succ, netCount] using ihk (c + 1) rest

lemma zeroHits_replicate_acq (id : String) :
    ∀ (k c : Nat) (rest : List PoolOp),
      zeroHits id c (List.replicate k (PoolOp.acq id) ++ rest)
        = zeroHits id (c + k) rest := by
  intro k
  induction k with
  | zero => intro c rest; simp
  | succ k ihk =>
    intro c rest
    have : c + (k + 1) = (c + 1) + k := by omega
    rw [this]
    simpa [List.replicate_succ, zeroHits] using ihk (c + 1) rest

lemma balancedFrom_replicate_rel (id : String) :
    ∀ k : Nat, balancedFrom id k (List.replicate k (PoolOp.rel id)) = true := by
  intro k
  induction k with
  | zero => simp [balancedFrom]
  | succ k ihk => simpa [List.replicate_succ, balancedFrom] using ihk

lemma netCount_replicate_rel (id : String) :
    ∀ k : Nat, netCount id k (List.replicate k (PoolOp.rel id)) = 0 := by
  intro k
  induction k with
  | zero => simp [netCount]
  | succ k ihk => simpa [List.replicate_succ, netCount] using ihk

lemma zeroHits_replicate_rel (id : String) :
    ∀ k : Nat, zeroHits id k (List.replicate k (PoolOp.rel id))
      = if k = 0 then 0 else 1 := by
  intro k
  induction k with
  | zero => simp [zeroHits]
  | succ k ihk =>
    cases k with
    | zero => simp [List.replicate_succ, zeroHits]
    | succ m =>
      have h1 : ¬ (m + 1 + 1 = 1) := by omega
      have hred : zeroHits id (m + 1 + 1) (List.replicate (m + 1 + 1) (PoolOp.rel id))
          = (if m + 1 + 1 = 1 then 1 else 0)
            + zeroHits id (m + 1) (List.replicate (m + 1) (PoolOp.rel id)) := by
        rw [List.replicate_succ]
        simp only [zeroHits, beq_self_eq_true, ite_true, Nat.add_sub_cancel]
      rw [hred, if_neg h1]
      have ih1 : zeroHits id (m + 1) (List.replicate (m + 1) (PoolOp.rel id)) = 1 := by
        simpa using ihk
      simp [ih1]

/-- C7: for any balanced acquire/release sequence from an empty pool, the
entry for an id exists iff its acquires strictly exceed its releases; when
the counts are equal the entry is gone; the teardown log records exactly
one teardown per return of the refcount to zero — in particular exactly
one teardown for a sequence of k acquires followed by k releases — so
teardown never fires while the refcount is positive and never fires twice.
(Balanced means no release of an id whose refcount is zero, the
precondition the spec imposes on pool clients.) -/
theorem pool_entry_iff_refcount_and_single_teardown :
    (∀ (id : String) (ops : List PoolOp), balancedFrom id 0 ops = true →
      (((poolLookup (poolRun PoolState.empty ops) id).isSome = true)
          ↔ relCount id ops < acqCount id ops)
      ∧ (acqCount id ops = relCount id ops →
          poolLookup (poolRun PoolState.empty ops) id = none)
      ∧ ((poolRun PoolState.empty ops).teardowns.count id = zeroHits id 0 ops))
    ∧ (∀ (id : String) (k : Nat), 0 < k →
        poolLookup (poolRun PoolState.empty
            (List.replicate k (PoolOp.acq id) ++ List.replicate k (PoolOp.rel id))) id = none
        ∧ (poolRun PoolState.empty
            (List.replicate k (PoolOp.acq id)
              ++ List.replicate k (PoolOp.rel id))).teardowns.count id = 1) := by
  have main : ∀ (id : String) (ops : List PoolOp), balancedFrom id 0 ops = true →
      (poolLookup (poolRun PoolState.empty ops) id
        = (if netCount id 0 ops = 0 then none else some (netCount id 0 ops)))
      ∧ ((poolRun PoolState.empty ops).teardowns.count id = zeroHits id 0 ops) := by
    intro id ops hbal
    have hinv := poolRun_invariant id ops 0 PoolState.empty hbal (by simp [PoolState.empty])
    constructor
    · by_cases hn : netCount id 0 ops = 0
      · rw [hn] at hinv ⊢
        simp only [ite_true]
        exact entryLookup_of_filter_nil id _ (by simpa using hinv.1)
      · rw [if_neg hn] at hinv ⊢
        exact entryLookup_of_filter_single id _ _ (by simpa [hn] using hinv.1)
    · simpa [PoolState.empty] using hinv.2
  constructor
  · intro id ops hbal
    have hm := main id ops hbal
    have hcount := netCount_add_relCount id ops 0 hbal
    refine ⟨?_, ?_, hm.2⟩
    · constructor
      · intro hs
        by_cases hn : netCount id 0 ops = 0
        · rw [hm.1, if_pos hn] at hs
          simp at hs
        · omega
      · intro hlt
        have hn : ¬ (netCount id 0 ops = 0) := by omega
        rw [hm.1, if_neg hn]
        rfl
    · intro heq
      have hn : netCount id 0 ops = 0 := by omega
      rw [hm.1, if_pos hn]
  · intro id k hk
    have hbal : balancedFrom id 0 (List.replicate k (PoolOp.acq id)
        ++ List.replicate k (PoolOp.rel id)) = true := by
      rw [balancedFrom_replicate_acq id k 0 _]
      simpa using balancedFrom_replicate_rel id k
    have hm := main id _ hbal
    have hnet : netCount id 0 (List.replicate k (PoolOp.acq id)
        ++ List.replicate k (PoolOp.rel id)) = 0 := by
      rw [netCount_replicate_acq id k 0 _]
      simpa using netCount_replicate_rel id k
    have hzero : zeroHits id 0 (List.replicate k (PoolOp.acq id)
        ++ List.replicate k (PoolOp.rel id)) = 1 := by
      rw [zeroHits_replicate_acq id k 0 _]
      have := zeroHits_replicate_rel id k
      simpa [Nat.pos_iff_ne_zero.mp hk] using this
    refine ⟨?_, ?_⟩
    · rw [hm.1, if_pos hnet]
    · rw [hm.2, hzero]

/-- Witness for C7: the concrete sequence acquire, acquire, release,
release on one id. -/
theorem pool_entry_iff_refcount_and_single_teardown_witness :
    poolLookup (poolRun PoolState.empty
        [PoolOp.acq "m", PoolOp.acq "m", PoolOp.rel "m", PoolOp.rel "m"]) "m" = none
    ∧ (poolRun PoolState.empty
        [PoolOp.acq "m", PoolOp.acq "m", PoolOp.rel "m", PoolOp.rel "m"]).teardowns.count "m"
        = 1 := by
  have h := pool_entry_iff_refcount_and_single_teardown.2 "m" 2 (by decide)
  simpa [List.replicate] using h

/-! ### Session construction lemmas (C1, C2, C3, C5) -/

lemma releaseShared_fields (st : KState) :
    (releaseSharedResources st).pendingProvider = st.pendingProvider
    ∧ (releaseSharedResources st).pendingModel = st.pendingModel
    ∧ (releaseSharedResources st).pendingApiKey = st.pendingApiKey
    ∧ (releaseSharedResources st).activeProvider = st.activeProvider
    ∧ (releaseSharedResources st).activeModel = st.activeModel
    ∧ (releaseSharedResources st).sessionInitialized = st.sessionInitialized
    ∧ (releaseSharedResources st).languageModel = st.languageModel
    ∧ ((releaseSharedResources st).activeWebLLMModelId = st.activeWebLLMModelId
        ∨ (releaseSharedResources st).activeWebLLMModelId = none) := by
  cases h : st.activeWebLLMModelId <;> simp [releaseSharedResources, h]

lemma tryCreate_state (env : Env) (st : KState) (n : Nat) (p m : String) :
    ((tryCreateSessionWithProvider env st n p m).1.pendingProvider = st.pendingProvider)
    ∧ ((tryCreateSessionWithProvider env st n p m).1.pendingModel = st.pendingModel)
    ∧ ((tryCreateSessionWithProvider env st n p m).1.pendingApiKey = st.pendingApiKey)
    ∧ ((tryCreateSessionWithProvider env st n p m).2.2 = .success →
        (tryCreateSessionWithProvider env st n p m).1.sessionInitialized = true
        ∧ (tryCreateSessionWithProvider env st n p m).1.languageModel = some (p, m))
    ∧ ((tryCreateSessionWithProvider env st n p m).2.2 ≠ .success →
        (tryCreateSessionWithProvider env st n p m).1.activeProvider = st.activeProvider
        ∧ (tryCreateSessionWithProvider env st n p m).1.activeModel = st.activeModel
        ∧ (tryCreateSessionWithProvider env st n p m).1.sessionInitialized
            = st.sessionInitialized
        ∧ (tryCreateSessionWithProvider env st n p m).1.languageModel = st.languageModel
        ∧ ((tryCreateSessionWithProvider env st n p m).1.activeWebLLMModelId
              = st.activeWebLLMModelId
            ∨ (tryCreateSessionWithProvider env st n p m).1.activeWebLLMModelId = none)) := by
  obtain ⟨r1, r2, r3, r4, r5, r6, r7, r8⟩ := releaseShared_fields st
  by_cases h0 : env.cancelledAt n = true
  · have heq : tryCreateSessionWithProvider env st n p m = (st, n + 1, .aborted) := by
      simp [tryCreateSessionWithProvider, h0]
    rw [heq]
    refine ⟨rfl, rfl, rfl, ?_, ?_⟩
    · intro h; cases h
    · intro _; exact ⟨rfl, rfl, rfl, rfl, Or.inl rfl⟩
  · have h0' : env.cancelledAt n = false := by simpa using h0
    cases hc : env.create p m with
    | abortErr =>
      have heq : tryCreateSessionWithProvider env st n p m
          = (releaseSharedResources st, n + 1, .aborted) := by
        simp [tryCreateSessionWithProvider, h0', hc]
      rw [heq]
      refine ⟨r1, r2, r3, ?_, ?_⟩
      · intro h; cases h
      · intro _; exact ⟨r4, r5, r6, r7, r8⟩
    | err msg =>
      have heq : tryCreateSessionWithProvider env st n p m
          = (releaseSharedResources st, n + 1, .failure msg) := by
        simp [tryCreateSessionWithProvider, h0', hc]
      rw [heq]
      refine ⟨r1, r2, r3, ?_, ?_⟩
      · intro h; cases h
      · intro _; exact ⟨r4, r5, r6, r7, r8⟩
    | ok wid =>
      by_cases h1 : env.cancelledAt (n + 1) = true
      · cases wid with
        | none =>
          have heq : tryCreateSessionWithProvider env st n p m
              = (releaseSharedResources st, n + 2, .aborted) := by
            simp [tryCreateSessionWithProvider, h0', hc, h1]
          rw [heq]
          refine ⟨r1, r2, r3, ?_, ?_⟩
          · intro h; cases h
          · intro _; exact ⟨r4, r5, r6, r7, r8⟩
        | some w =>
          have heq : tryCreateSessionWithProvider env st n p m
              = ({ releaseSharedResources st with
                    pool := poolAcquire (releaseSharedResources st).pool w },
                 n + 2, .aborted) := by
            simp [tryCreateSessionWithProvider, h0', hc, h1]
          rw [heq]
          refine ⟨r1, r2, r3, ?_, ?_⟩
          · intro h; cases h
          · intro _; exact ⟨r4, r5, r6, r7, r8⟩
      · have h1' : env.cancelledAt (n + 1) = false := by simpa using h1
        cases wid with
        | none =>
          have heq : tryCreateSessionWithProvider env st n p m
              = ({ releaseSharedResources st with
                    languageModel := some (p, m), activeProvider := some p,
                    activeModel := some m, sessionInitialized := true },
                 n + 2, .success) := by
            simp only [tryCreateSessionWithProvider, h0', Bool.false_eq_true, ite_false,
              hc, h1', ite_false]
          rw [heq]
          refine ⟨r1, r2, r3, ?_, ?_⟩
          · intro _; exact ⟨rfl, rfl⟩
          · intro h; exact absurd rfl h
        | some w =>
          have heq : tryCreateSessionWithProvider env st n p m
              = ({ releaseSharedResources st with
                    pool := poolAcquire (releaseSharedResources st).pool w,
                    languageModel := some (p, m), activeProvider := some p,
                    activeModel := some m, sessionInitialized := true,
                    activeWebLLMModelId := some w },
                 n + 2, .success) := by
            simp only [tryCreateSessionWithProvider, h0', Bool.false_eq_true, ite_false,
              hc, h1', ite_false]
          rw [heq]
          refine ⟨r1, r2, r3, ?_, ?_⟩
          · intro _; exact ⟨rfl, rfl⟩
          · intro h; exact absurd rfl h

lemma createSessionLoop_state (env : Env) :
    ∀ (fuel : Nat) (st : KState) (n : Nat) (p : String) (errors attempts : List String),
      ((createSessionLoop env st n p errors attempts fuel).state.pendingProvider
          = st.pendingProvider)
      ∧ ((createSessionLoop env st n p errors attempts fuel).state.pendingModel
          = st.pendingModel)
      ∧ ((createSessionLoop env st n p errors attempts fuel).state.pendingApiKey
          = st.pendingApiKey)
      ∧ ((createSessionLoop env st n p errors attempts fuel).outcome = .ok →
          (createSessionLoop env st n p errors attempts fuel).state.sessionInitialized = true
          ∧ ((createSessionLoop env st n p errors attempts fuel).state.languageModel.isSome
              = true))
      ∧ ((createSessionLoop env st n p errors attempts fuel).outcome ≠ .ok →
          (createSessionLoop env st n p errors attempts fuel).state.activeProvider
            = st.activeProvider
          ∧ (createSessionLoop env st n p errors attempts fuel).state.activeModel
            = st.activeModel
          ∧ (createSessionLoop env st n p errors attempts fuel).state.sessionInitialized
            = st.sessionInitialized
          ∧ (createSessionLoop env st n p errors attempts fuel).state.languageModel
            = st.languageModel
          ∧ ((createSessionLoop env st n p errors attempts fuel).state.activeWebLLMModelId
              = st.activeWebLLMModelId
            ∨ (createSessionLoop env st n p errors attempts fuel).state.activeWebLLMModelId
              = none)) := by
  intro fuel
  induction fuel with
  | zero =>
    intro st n p errors attempts
    refine ⟨rfl, rfl, rfl, ?_, ?_⟩
    · intro h; cases h
    · intro _; exact ⟨rfl, rfl, rfl, rfl, Or.inl rfl⟩
  | succ fuel ih =>
    intro st n p errors attempts
    by_cases h0 : env.cancelledAt n = true
    · have heq : createSessionLoop env st n p errors attempts (fuel + 1)
          = ⟨st, n + 1, .aborted, attempts⟩ := by
        simp [createSessionLoop, h0]
      rw [heq]
      refine ⟨rfl, rfl, rfl, ?_, ?_⟩
      · intro h; cases h
      · intro _; exact ⟨rfl, rfl, rfl, rfl, Or.inl rfl⟩
    · have h0' : env.cancelledAt n = false := by simpa using h0
      obtain ⟨t1, t2, t3, t4, t5⟩ :=
        tryCreate_state env st (n + 1) p (env.defaultModel p)
      cases hr : (tryCreateSessionWithProvider env st (n + 1) p (env.defaultModel p)).2.2 with
      | success =>
        have heq : createSessionLoop env st n p errors attempts (fuel + 1)
            = ⟨(tryCreateSessionWithProvider env st (n + 1) p (env.defaultModel p)).1,
               (tryCreateSessionWithProvider env st (n + 1) p (env.defaultModel p)).2.1,
               .ok, attempts ++ [p]⟩ := by
          simp [createSessionLoop, h0', hr]
        rw [heq]
        have hcommit := t4 hr
        refine ⟨t1, t2, t3, ?_, ?_⟩
        · intro _; exact ⟨hcommit.1, by rw [hcommit.2]; rfl⟩
        · intro h; exact absurd rfl h
      | aborted =>
        have heq : createSessionLoop env st n p errors attempts (fuel + 1)
            = ⟨(tryCreateSessionWithProvider env st (n + 1) p (env.defaultModel p)).1,
               (tryCreateSessionWithProvider env st (n + 1) p (env.defaultModel p)).2.1,
               .aborted, attempts ++ [p]⟩ := by
          simp [createSessionLoop, h0', hr]
        rw [heq]
        have hkeep := t5 (by rw [hr]; exact fun h => nomatch h)
        refine ⟨t1, t2, t3, ?_, ?_⟩
        · intro h; cases h
        · intro _; exact hkeep
      | failure e =>
        have hkeep := t5 (by rw [hr]; exact fun h => nomatch h)
        cases hnext : getNextFallbackProvider p with
        | some q =>
          have heq : createSessionLoop env st n p errors attempts (fuel + 1)
              = createSessionLoop env
                  (tryCreateSessionWithProvider env st (n + 1) p (env.defaultModel p)).1
                  (tryCreateSessionWithProvider env st (n + 1) p (env.defaultModel p)).2.1
                  q (errors ++ [p ++ ": " ++ e]) (attempts ++ [p]) fuel := by
            simp [createSessionLoop, h0', hr, hnext]
          rw [heq]
          obtain ⟨i1, i2, i3, i4, i5⟩ :=
            ih (tryCreateSessionWithProvider env st (n + 1) p (env.defaultModel p)).1
              (tryCreateSessionWithProvider env st (n + 1) p (env.defaultModel p)).2.1 q
              (errors ++ [p ++ ": " ++ e]) (attempts ++ [p])
          refine ⟨by rw [i1, t1], by rw [i2, t2], by rw [i3, t3], i4, ?_⟩
          intro hne
          obtain ⟨k1, k2, k3, k4, k5⟩ := i5 hne
          refine ⟨by rw [k1, hkeep.1], by rw [k2, hkeep.2.1], by rw [k3, hkeep.2.2.1],
            by rw [k4, hkeep.2.2.2.1], ?_⟩
          cases k5 with
          | inl hsame =>
            cases hkeep.2.2.2.2 with
            | inl h => exact Or.inl (by rw [hsame, h])
            | inr h => exact Or.inr (by rw [hsame, h])
          | inr hnone => exact Or.inr hnone
        | none =>
          have heq : createSessionLoop env st n p errors attempts (fuel + 1)
              = ⟨(tryCreateSessionWithProvider env st (n + 1) p (env.defaultModel p)).1,
                 (tryCreateSessionWithProvider env st (n + 1) p (env.defaultModel p)).2.1,
                 .error (aggregateFailureMsg (errors ++ [p ++ ": " ++ e])),
                 attempts ++ [p]⟩ := by
            simp [createSessionLoop, h0', hr, hnext]
          rw [heq]
          refine ⟨t1, t2, t3, ?_, ?_⟩
          · intro h; cases h
          · intro _; exact hkeep

lemma isAutoSelectMode_eq_false (st : KState) (s : Settings) (p : String)
    (h : getProviderToUse st s = some p) : isAutoSelectMode st s = false := by
  unfold isAutoSelectMode
  cases hpp : st.pendingProvider with
  | some q => simp [hpp]
  | none =>
    unfold getProviderToUse at h
    rw [hpp] at h
    simp only [] at h
    simp [hpp, h]

lemma createSession_state (env : Env) (st : KState) (n : Nat) :
    ((createSession env st n).state.pendingProvider = st.pendingProvider)
    ∧ ((createSession env st n).state.pendingModel = st.pendingModel)
    ∧ ((createSession env st n).state.pendingApiKey = st.pendingApiKey)
    ∧ ((createSession env st n).outcome = .ok →
        (createSession env st n).state.sessionInitialized = true
        ∧ (createSession env st n).state.languageModel.isSome = true)
    ∧ ((createSession env st n).outcome ≠ .ok →
        (createSession env st n).state.activeProvider = st.activeProvider
        ∧ (createSession env st n).state.activeModel = st.activeModel
        ∧ (createSession env st n).state.sessionInitialized = st.sessionInitialized
        ∧ (createSession env st n).state.languageModel = st.languageModel
        ∧ ((createSession env st n).state.activeWebLLMModelId = st.activeWebLLMModelId
            ∨ (createSession env st n).state.activeWebLLMModelId = none)) := by
  cases hp : getProviderToUse st env.settings with
  | none =>
    cases hs : autoSelectLocalProvider env.support with
    | none =>
      have heq : createSession env st n = ⟨st, n, .error noLocalProviderMsg, []⟩ := by
        simp [createSession, hp, hs]
      rw [heq]
      refine ⟨rfl, rfl, rfl, ?_, ?_⟩
      · intro h; cases h
      · intro _; exact ⟨rfl, rfl, rfl, rfl, Or.inl rfl⟩
    | some p0 =>
      have heq : createSession env st n
          = createSessionLoop env st n p0 [] [] (fallbackOrder.length + 1) := by
        simp [createSession, hp, hs]
      rw [heq]
      exact createSessionLoop_state env (fallbackOrder.length + 1) st n p0 [] []
  | some p =>
    have ha := isAutoSelectMode_eq_false st env.settings p hp
    by_cases hk : ((getApiKey st env.settings).isNone
        && (match getProviderConfig p with
            | some c => c.requiresApiKey
            | none => false)) = true
    · have heq : createSession env st n = ⟨st, n, .error (apiKeyRequiredMsg p), []⟩ := by
        simp only [createSession, hp, ha, hk, ite_true]
      rw [heq]
      refine ⟨rfl, rfl, rfl, ?_, ?_⟩
      · intro h; cases h
      · intro _; exact ⟨rfl, rfl, rfl, rfl, Or.inl rfl⟩
    · have hk' : ((getApiKey st env.settings).isNone
          && (match getProviderConfig p with
              | some c => c.requiresApiKey
              | none => false)) = false := by simpa using hk
      obtain ⟨t1, t2, t3, t4, t5⟩ := tryCreate_state env st n p (getModelToUse env st p)
      cases hr : (tryCreateSessionWithProvider env st n p (getModelToUse env st p)).2.2 with
      | success =>
        have heq : createSession env st n
            = ⟨(tryCreateSessionWithProvider env st n p (getModelToUse env st p)).1,
               (tryCreateSessionWithProvider env st n p (getModelToUse env st p)).2.1,
               .ok, [p]⟩ := by
          simp only [createSession, hp, ha, hk', Bool.false_eq_true, ite_false, hr]
        rw [heq]
        have hcommit := t4 hr
        refine ⟨t1, t2, t3, ?_, ?_⟩
        · intro _; exact ⟨hcommit.1, by rw [hcommit.2]; rfl⟩
        · intro h; exact absurd rfl h
      | failure e =>
        have heq : createSession env st n
            = ⟨(tryCreateSessionWithProvider env st n p (getModelToUse env st p)).1,
               (tryCreateSessionWithProvider env st n p (getModelToUse env st p)).2.1,
               .error (failedExplicitMsg p (getModelToUse env st p) e), [p]⟩ := by
          simp only [createSession, hp, ha, hk', Bool.false_eq_true, ite_false, hr]
        rw [heq]
        have hkeep := t5 (by rw [hr]; exact fun h => nomatch h)
        refine ⟨t1, t2, t3, ?_, ?_⟩
        · intro h; cases h
        · intro _; exact hkeep
      | aborted =>
        have heq : createSession env st n
            = ⟨(tryCreateSessionWithProvider env st n p (getModelToUse env st p)).1,
               (tryCreateSessionWithProvider env st n p (getModelToUse env st p)).2.1,
               .aborted, [p]⟩ := by
          simp only [createSession, hp, ha, hk', Bool.false_eq_true, ite_false, hr]
        rw [heq]
        have hkeep := t5 (by rw [hr]; exact fun h => nomatch h)
        refine ⟨t1, t2, t3, ?_, ?_⟩
        · intro h; cases h
        · intro _; exact hkeep

/-- C1 (amended): a session construction that is cancelled mid-way never
commits the Active configuration — getConfig (activeProvider, activeModel,
sessionActive, pendingProvider, pendingModel) and the held language-model
handle are exactly as before — but the activeWebLLMModelId tracking field
is only unchanged or reset to null: tryCreateSessionWithProvider releases
any previously held shared instance before the attempt and does not
restore it on cancellation. -/
theorem cancelled_construction_no_partial_commit :
    ∀ (env : Env) (st : KState) (n : Nat),
      (createSession env st n).outcome = .aborted →
      getConfig (createSession env st n).state = getConfig st
      ∧ (createSession env st n).state.languageModel = st.languageModel
      ∧ ((createSession env st n).state.activeWebLLMModelId = st.activeWebLLMModelId
          ∨ (createSession env st n).state.activeWebLLMModelId = none) := by
  intro env st n h
  obtain ⟨c1, c2, _, _, c5⟩ := createSession_state env st n
  have hne : (createSession env st n).outcome ≠ .ok := by
    rw [h]; exact fun hh => nomatch hh
  obtain ⟨k1, k2, k3, k4, k5⟩ := c5 hne
  exact ⟨by simp [getConfig, c1, c2, k1, k2, k3], k4, k5⟩

/-- A kernel state holding a live WebLLM-backed session, as left by a
successful auto-selected construction (reachable, e.g., before a
settings-change makes the next send reconstruct). -/
def kstateLiveWebLLM : KState :=
  { KState.fresh with
      activeProvider := some "built-in-ai/webllm",
      activeModel := some "SmolLM2-360M-Instruct-q4f16_1-MLC",
      languageModel := some ("built-in-ai/webllm", "SmolLM2-360M-Instruct-q4f16_1-MLC"),
      sessionInitialized := true,
      activeWebLLMModelId := some "SmolLM2-360M-Instruct-q4f16_1-MLC",
      pool := ⟨[("SmolLM2-360M-Instruct-q4f16_1-MLC", 1)], []⟩ }

/-- Environment in which the settings now select built-in-ai/core and the
user cancels during the provider construction (AbortError from
createProvider). -/
def envAbortMidCreate : Env :=
  { settings := ⟨some "built-in-ai/core", none, none⟩,
    support := fun _ => true,
    defaultModel := fun _ => "text",
    create := fun _ _ => .abortErr,
    cancelledAt := fun _ => false }

/-- Environment in which construction succeeds (acquiring a pool instance)
but cancellation is detected at the checkpoint right after createProvider
returns. -/
def envCancelAfterCreate : Env :=
  { settings := ⟨some "built-in-ai/webllm", none, none⟩,
    support := fun _ => true,
    defaultModel := fun _ => "m-leak",
    create := fun _ _ => .ok (some "m-leak"),
    cancelledAt := fun k => k == 1 }

/-- Counterexample to C1 as stated: (1) cancelling mid-construction from a
state holding a WebLLM instance leaves activeWebLLMModelId changed (reset
to none, the held pool entry released and torn down); (2) cancelling at
the post-creation checkpoint leaves the pool resource newly acquired
during the aborted attempt unreleased (refcount 1 still in the pool). -/
theorem cancelled_construction_counterexample :
    ((createSession envAbortMidCreate kstateLiveWebLLM 0).outcome = .aborted
      ∧ ¬ ((createSession envAbortMidCreate kstateLiveWebLLM 0).state.activeWebLLMModelId
            = kstateLiveWebLLM.activeWebLLMModelId)
      ∧ (createSession envAbortMidCreate kstateLiveWebLLM 0).state.pool.teardowns
          = ["SmolLM2-360M-Instruct-q4f16_1-MLC"])
    ∧ ((createSession envCancelAfterCreate KState.fresh 0).outcome = .aborted
      ∧ poolLookup (createSession envCancelAfterCreate KState.fresh 0).state.pool "m-leak"
          = some 1) := by
  refine ⟨⟨?_, ?_, ?_⟩, ?_, ?_⟩ <;> decide

/-- Witness for the amended C1 at the concrete cancelled run. -/
theorem cancelled_construction_no_partial_commit_witness :
    getConfig (createSession envAbortMidCreate kstateLiveWebLLM 0).state
      = getConfig kstateLiveWebLLM
    ∧ ((createSession envAbortMidCreate kstateLiveWebLLM 0).state.activeWebLLMModelId
        = kstateLiveWebLLM.activeWebLLMModelId
      ∨ (createSession envAbortMidCreate kstateLiveWebLLM 0).state.activeWebLLMModelId
        = none) := by
  have h := cancelled_construction_no_partial_commit envAbortMidCreate kstateLiveWebLLM 0
    (by decide)
  exact ⟨h.1, h.2.2⟩

/-- C5: with an explicitly configured provider whose registry entry
requires an API key while none is available from pending configuration or
settings, createSession fails with the remediation message naming the
provider, before any construction attempt, and leaves the state (hence
getConfig, sessionActive, activeProvider) untouched; the error is not
retried. -/
theorem credential_missing_surfaced_without_retry :
    ∀ (env : Env) (st : KState) (n : Nat) (p : String) (c : ProviderConfig),
      getProviderToUse st env.settings = some p →
      getProviderConfig p = some c →
      c.requiresApiKey = true →
      getApiKey st env.settings = none →
      createSession env st n = ⟨st, n, .error (apiKeyRequiredMsg p), []⟩ := by
  intro env st n p c hp hc hreq hkey
  have ha := isAutoSelectMode_eq_false st env.settings p hp
  have hcond : ((getApiKey st env.settings).isNone
      && (match getProviderConfig p with
          | some c => c.requiresApiKey
          | none => false)) = true := by
    rw [hkey, hc]
    simp [hreq]
  simp only [createSession, hp, ha, hcond, ite_true]

/-- Witness for C5: explicit provider openai with no key anywhere; the
message names openai and points at the key-setting commands. -/
theorem credential_missing_surfaced_without_retry_witness :
    createSession
        { settings := ⟨none, none, none⟩, support := fun _ => false,
          defaultModel := fun _ => "gpt-4o-mini", create := fun _ _ => .err "unreachable",
          cancelledAt := fun _ => false }
        { KState.fresh with pendingProvider := some "openai" } 0
      = ⟨{ KState.fresh with pendingProvider := some "openai" }, 0,
         .error (apiKeyRequiredMsg "openai"), []⟩
    ∧ containsSub (apiKeyRequiredMsg "openai") "openai" = true
    ∧ containsSub (apiKeyRequiredMsg "openai") "%chat key" = true := by
  refine ⟨?_, by decide, by decide⟩
  exact credential_missing_surfaced_without_retry
    { settings := ⟨none, none, none⟩, support := fun _ => false,
      defaultModel := fun _ => "gpt-4o-mini", create := fun _ _ => .err "unreachable",
      cancelledAt := fun _ => false }
    { KState.fresh with pendingProvider := some "openai" } 0 "openai"
    { name := "openai", displayName := "OpenAI", requiresApiKey := true,
      envVar := some "OPENAI_API_KEY", description := some "OpenAI GPT models" }
    rfl (by decide) rfl rfl

lemma needsRefresh_stable (env : Env) (st : KState)
    (h1 : st.sessionInitialized = true) (h2 : st.pendingProvider = none)
    (h3 : env.settings.settingsDefaultProvider = none)
    (h4 : st.pendingModel = none ∨ st.pendingModel = st.activeModel) :
    needsSessionRefresh st env.settings = false := by
  have htp : getProviderToUse st env.settings = none := by
    simp [getProviderToUse, h2, getDefaultProviderFromSettings, h3, DEFAULT_PROVIDER]
  cases h4 with
  | inl hm =>
    cases ha : st.activeProvider <;>
      simp [needsSessionRefresh, h1, htp, hm, ha]
  | inr hm =>
    cases hpm : st.pendingModel with
    | none =>
      cases ha : st.activeProvider <;>
        simp [needsSessionRefresh, h1, htp, hpm, ha]
    | some m =>
      have ham : st.activeModel = some m := by rw [← hm, hpm]
      cases ha : st.activeProvider <;>
        simp [needsSessionRefresh, h1, htp, hpm, ha, ham]

lemma sendSession_stable_step (env : Env) (st : KState) (n : Nat)
    (href : needsSessionRefresh st env.settings = false) :
    (sendSession env st n).state = st ∧ (sendSession env st n).ckpt = n
    ∧ (sendSession env st n).constructed = 0 := by
  unfold sendSession
  rw [href]
  by_cases hl : st.languageModel.isNone = true <;> simp [hl]

lemma iterate_stable (env : Env) (st : KState)
    (h1 : st.sessionInitialized = true) (h2 : st.pendingProvider = none)
    (h3 : env.settings.settingsDefaultProvider = none)
    (h4 : st.pendingModel = none ∨ st.pendingModel = st.activeModel) :
    ∀ (k n : Nat), iterateSendConstructions env k (st, n) = 0 := by
  intro k
  induction k with
  | zero => intro n; rfl
  | succ k ih =>
    intro n
    have href := needsRefresh_stable env st h1 h2 h3 h4
    obtain ⟨hs, hc, hn0⟩ := sendSession_stable_step env st n href
    show (sendSession env st n).constructed
        + iterateSendConstructions env k ((sendSession env st n).state, (sendSession env st n).ckpt)
      = 0
    rw [hn0, hs, hc, ih n]

/-- C2: once a session is initialized with no explicit pending provider,
no settings provider, and no pending model differing from the active one,
needsSessionRefresh is false; repeated sends never invoke createSession
again, and from a fresh auto-select state whose construction succeeds, N
consecutive sends invoke it exactly once. -/
theorem refresh_stability_construct_once :
    (∀ (env : Env) (st : KState),
      st.sessionInitialized = true → st.pendingProvider = none →
      env.settings.settingsDefaultProvider = none →
      (st.pendingModel = none ∨ st.pendingModel = st.activeModel) →
      needsSessionRefresh st env.settings = false)
    ∧ (∀ (env : Env) (st : KState) (k n : Nat),
      st.sessionInitialized = true → st.pendingProvider = none →
      env.settings.settingsDefaultProvider = none →
      (st.pendingModel = none ∨ st.pendingModel = st.activeModel) →
      iterateSendConstructions env k (st, n) = 0)
    ∧ (∀ (env : Env) (st : KState) (n k : Nat),
      st.sessionInitialized = false → st.pendingProvider = none →
      st.pendingModel = none →
      env.settings.settingsDefaultProvider = none →
      (createSession env st n).outcome = .ok →
      iterateSendConstructions env (k + 1) (st, n) = 1) := by
  refine ⟨needsRefresh_stable, fun env st k n h1 h2 h3 h4 =>
    iterate_stable env st h1 h2 h3 h4 k n, ?_⟩
  intro env st n k h1 h2 hm h3 hok
  obtain ⟨c1, c2, _, c4, _⟩ := createSession_state env st n
  have hcommit := c4 hok
  have href : needsSessionRefresh st env.settings = true := by
    simp [needsSessionRefresh, h1]
  have hl : (createSession env st n).state.languageModel.isNone = false := by
    obtain ⟨v, hv⟩ := Option.isSome_iff_exists.mp hcommit.2
    simp [hv]
  have hsend : sendSession env st n
      = ⟨(createSession env st n).state, (createSession env st n).ckpt, 1, .ok⟩ := by
    unfold sendSession
    rw [href]
    simp [hok, hl]
  show (sendSession env st n).constructed
      + iterateSendConstructions env k ((sendSession env st n).state, (sendSession env st n).ckpt)
    = 1
  rw [hsend]
  have hzero := iterate_stable env (createSession env st n).state hcommit.1
    (by rw [c1]; exact h2) h3 (Or.inl (by rw [c2]; exact hm)) k
    (createSession env st n).ckpt
  simpa using hzero

/-- Environment where auto-select finds built-in-ai/core and construction
succeeds immediately. -/
def envAutoOk : Env :=
  { settings := ⟨none, none, none⟩,
    support := fun p => p == "built-in-ai/core",
    defaultModel := fun _ => "text",
    create := fun _ _ => .ok none,
    cancelledAt := fun _ => false }

/-- Witness for C2: from a fresh kernel, three consecutive sends construct
exactly once. -/
theorem refresh_stability_construct_once_witness :
    iterateSendConstructions envAutoOk 3 (KState.fresh, 0) = 1 :=
  refresh_stability_construct_once.2.2 envAutoOk KState.fresh 0 2
    rfl rfl rfl rfl (by decide)

/-- C3: in auto-select mode createSession takes its initial candidate from
autoSelectLocalProvider (failing with the no-local-provider message when
there is none) and runs the fallback loop, which: commits and returns on a
successful attempt; on an ordinary failure records "provider: error" and
advances to getNextFallbackProvider; on cancellation — at the loop-head
checkpoint or as an AbortError from the attempt — stops immediately
without advancing to the next candidate; and when the last candidate
fails, fails with the aggregate message listing every attempted provider
with its reason. -/
theorem auto_select_fallback_loop :
    (∀ (env : Env) (st : KState) (n : Nat),
      getProviderToUse st env.settings = none →
      autoSelectLocalProvider env.support = none →
      createSession env st n = ⟨st, n, .error noLocalProviderMsg, []⟩)
    ∧ (∀ (env : Env) (st : KState) (n : Nat) (p0 : String),
      getProviderToUse st env.settings = none →
      autoSelectLocalProvider env.support = some p0 →
      createSession env st n
        = createSessionLoop env st n p0 [] [] (fallbackOrder.length + 1))
    ∧ (∀ (env : Env) (st : KState) (n : Nat) (p : String)
        (errors attempts : List String) (fuel : Nat) (wid : Option String),
      env.cancelledAt n = false → env.cancelledAt (n + 1) = false →
      env.cancelledAt (n + 2) = false →
      env.create p (env.defaultModel p) = .ok wid →
      (createSessionLoop env st n p errors attempts (fuel + 1)).outcome = .ok
      ∧ (createSessionLoop env st n p errors attempts (fuel + 1)).attempts
          = attempts ++ [p]
      ∧ (createSessionLoop env st n p errors attempts (fuel + 1)).state.activeProvider
          = some p
      ∧ (createSessionLoop env st n p errors attempts (fuel + 1)).state.activeModel
          = some (env.defaultModel p)
      ∧ (createSessionLoop env st n p errors attempts
          (fuel + 1)).state.sessionInitialized = true)
    ∧ (∀ (env : Env) (st : KState) (n : Nat) (p q : String)
        (errors attempts : List String) (fuel : Nat) (e : String),
      env.cancelledAt n = false → env.cancelledAt (n + 1) = false →
      env.create p (env.defaultModel p) = .err e →
      getNextFallbackProvider p = some q →
      createSessionLoop env st n p errors attempts (fuel + 1)
        = createSessionLoop env (releaseSharedResources st) (n + 2) q
            (errors ++ [p ++ ": " ++ e]) (attempts ++ [p]) fuel)
    ∧ (∀ (env : Env) (st : KState) (n : Nat) (p : String)
        (errors attempts : List String) (fuel : Nat),
      (env.cancelledAt n = true →
        createSessionLoop env st n p errors attempts (fuel + 1)
          = ⟨st, n + 1, .aborted, attempts⟩)
      ∧ (env.cancelledAt n = false → env.cancelledAt (n + 1) = false →
          env.create p (env.defaultModel p) = .abortErr →
          createSessionLoop env st n p errors attempts (fuel + 1)
            = ⟨releaseSharedResources st, n + 2, .aborted, attempts ++ [p]⟩))
    ∧ (∀ (env : Env) (st : KState) (n : Nat) (p : String)
        (errors attempts : List String) (fuel : Nat) (e : String),
      env.cancelledAt n = false → env.cancelledAt (n + 1) = false →
      env.create p (env.defaultModel p) = .err e →
      getNextFallbackProvider p = none →
      createSessionLoop env st n p errors attempts (fuel + 1)
        = ⟨releaseSharedResources st, n + 2,
           .error (aggregateFailureMsg (errors ++ [p ++ ": " ++ e])),
           attempts ++ [p]⟩) := by
  refine ⟨?_, ?_, ?_, ?_, ?_, ?_⟩
  · intro env st n hp hs
    simp [createSession, hp, hs]
  · intro env st n p0 hp hs
    simp [createSession, hp, hs]
  · intro env st n p errors attempts fuel wid hc0 hc1 hc2 hcreate
    have h22 : (tryCreateSessionWithProvider env st (n + 1) p (env.defaultModel p)).2.2
        = .success := by
      cases wid with
      | none => simp [tryCreateSessionWithProvider, hc1, hc2, hcreate]
      | some w => simp [tryCreateSessionWithProvider, hc1, hc2, hcreate]
    have heqloop : createSessionLoop env st n p errors attempts (fuel + 1)
        = ⟨(tryCreateSessionWithProvider env st (n + 1) p (env.defaultModel p)).1,
           (tryCreateSessionWithProvider env st (n + 1) p (env.defaultModel p)).2.1,
           .ok, attempts ++ [p]⟩ := by
      simp [createSessionLoop, hc0, h22]
    have hap : (tryCreateSessionWithProvider env st (n + 1) p (env.defaultModel p)).1.activeProvider
        = some p := by
      cases wid with
      | none => simp [tryCreateSessionWithProvider, hc1, hc2, hcreate]
      | some w => simp [tryCreateSessionWithProvider, hc1, hc2, hcreate]
    have ham : (tryCreateSessionWithProvider env st (n + 1) p (env.defaultModel p)).1.activeModel
        = some (env.defaultModel p) := by
      cases wid with
      | none => simp [tryCreateSessionWithProvider, hc1, hc2, hcreate]
      | some w => simp [tryCreateSessionWithProvider, hc1, hc2, hcreate]
    have hsi : (tryCreateSessionWithProvider env st (n + 1) p
        (env.defaultModel p)).1.sessionInitialized = true := by
      cases wid with
      | none => simp [tryCreateSessionWithProvider, hc1, hc2, hcreate]
      | some w => simp [tryCreateSessionWithProvider, hc1, hc2, hcreate]
    rw [heqloop]
    exact ⟨rfl, rfl, hap, ham, hsi⟩
  · intro env st n p q errors attempts fuel e hc0 hc1 hcreate hnext
    have htc : tryCreateSessionWithProvider env st (n + 1) p (env.defaultModel p)
        = (releaseSharedResources st, n + 2, .failure e) := by
      simp [tryCreateSessionWithProvider, hc1, hcreate]
    simp [createSessionLoop, hc0, htc, hnext]
  · intro env st n p errors attempts fuel
    constructor
    · intro hc0
      simp [createSessionLoop, hc0]
    · intro hc0 hc1 hcreate
      have htc : tryCreateSessionWithProvider env st (n + 1) p (env.defaultModel p)
          = (releaseSharedResources st, n + 2, .aborted) := by
        simp [tryCreateSessionWithProvider, hc1, hcreate]
      simp [createSessionLoop, hc0, htc]
  · intro env st n p errors attempts fuel e hc0 hc1 hcreate hnext
    have htc : tryCreateSessionWithProvider env st (n + 1) p (env.defaultModel p)
        = (releaseSharedResources st, n + 2, .failure e) := by
      simp [tryCreateSessionWithProvider, hc1, hcreate]
    simp [createSessionLoop, hc0, htc, hnext]

/-- Environment where every local provider is supported and every
construction attempt fails with "boom". -/
def envAllFail : Env :=
  { settings := ⟨none, none, none⟩,
    support := fun _ => true,
    defaultModel := fun _ => "dm",
    create := fun _ _ => .err "boom",
    cancelledAt := fun _ => false }

/-- Environment where construction succeeds with a pooled instance. -/
def envOkPooled : Env :=
  { settings := ⟨none, none, none⟩,
    support := fun _ => true,
    defaultModel := fun _ => "dm",
    create := fun _ _ => .ok (some "w1"),
    cancelledAt := fun _ => false }

/-- Environment where the cancel flag is already set. -/
def envCancelledNow : Env :=
  { settings := ⟨none, none, none⟩,
    support := fun _ => true,
    defaultModel := fun _ => "dm",
    create := fun _ _ => .err "boom",
    cancelledAt := fun _ => true }

set_option maxRecDepth 4000 in
/-- Witness for C3: concrete runs of the initial-candidate choice, a
successful attempt, a recorded failure with advance, cancellation at the
loop head, exhaustion with the aggregate message, and the full three-
provider run whose aggregate error lists every attempted provider with
its reason. -/
theorem auto_select_fallback_loop_witness :
    (createSession envAllFail KState.fresh 0
      = createSessionLoop envAllFail KState.fresh 0 "built-in-ai/core" [] []
          (fallbackOrder.length + 1))
    ∧ ((createSessionLoop envOkPooled KState.fresh 0 "built-in-ai/core" [] [] 3).outcome
        = .ok)
    ∧ (createSessionLoop envAllFail KState.fresh 0 "built-in-ai/core" [] [] 4
        = createSessionLoop envAllFail (releaseSharedResources KState.fresh) 2
            "built-in-ai/webllm" ["built-in-ai/core: boom"] ["built-in-ai/core"] 3)
    ∧ (createSessionLoop envCancelledNow KState.fresh 5 "built-in-ai/webllm" [] [] 4
        = ⟨KState.fresh, 6, .aborted, []⟩)
    ∧ (createSessionLoop envAllFail KState.fresh 0 "built-in-ai/transformers"
          ["e1"] ["p1"] 4
        = ⟨releaseSharedResources KState.fresh, 2,
           .error (aggregateFailureMsg ["e1", "built-in-ai/transformers: boom"]),
           ["p1", "built-in-ai/transformers"]⟩)
    ∧ ((createSession envAllFail KState.fresh 0).outcome
        = .error (aggregateFailureMsg
            ["built-in-ai/core: boom", "built-in-ai/webllm: boom",
             "built-in-ai/transformers: boom"])
      ∧ (createSession envAllFail KState.fresh 0).attempts = fallbackOrder) := by
  refine ⟨?_, ?_, ?_, ?_, ?_, by decide, by decide⟩
  · exact auto_select_fallback_loop.2.1 envAllFail KState.fresh 0 "built-in-ai/core"
      rfl (by decide)
  · exact (auto_select_fallback_loop.2.2.1 envOkPooled KState.fresh 0 "built-in-ai/core"
      [] [] 2 (some "w1") rfl rfl rfl rfl).1
  · exact auto_select_fallback_loop.2.2.2.1 envAllFail KState.fresh 0 "built-in-ai/core"
      "built-in-ai/webllm" [] [] 3 "boom" rfl rfl rfl (by decide)
  · exact (auto_select_fallback_loop.2.2.2.2.1 envCancelledNow KState.fresh 5
      "built-in-ai/webllm" [] [] 3).1 rfl
  · exact auto_select_fallback_loop.2.2.2.2.2 envAllFail KState.fresh 0
      "built-in-ai/transformers" ["e1"] ["p1"] 3 "boom" rfl rfl rfl (by decide)

end AiSdkChat
